/-
Verification of the draft-advisor core of the liquipedia-scraper-service
repository.  The definitions below are a shallow embedding of
`apps/scraper-service/app/draft_v2_engine.py`, `app/draft_v2.py` and the
draft endpoints of `app/main.py`: Python floats are modelled as exact
rationals, Python `round(x, d)` as round-half-even on rationals, dicts as
association lists preserving insertion order, and Python's stable sorts as
stable insertion sorts.
-/
import Mathlib

namespace DraftV2

attribute [local semireducible] Rat.add Rat.mul Rat.inv Rat.sub Rat.ofScientific

/-- The two sides of a draft. -/
inductive Side where
  | ally
  | enemy
deriving DecidableEq, Repr

/-- `"enemy" if side == "ally" else "ally"`. -/
def oppositeSide : Side → Side
  | .ally => .enemy
  | .enemy => .ally

/-- Step/action type in the draft sequence. -/
inductive ActType where
  | pick
  | ban
deriving DecidableEq, Repr

/-- One entry of `DRAFT_V2_SEQUENCE`. -/
structure Step where
  type : ActType
  side : Side
  count : Nat
  text : String
deriving DecidableEq, Repr

/-- The fixed 15-step script `DRAFT_V2_SEQUENCE` from `draft_v2.py`. -/
def draftV2Sequence : List Step :=
  [ ⟨.ban, .ally, 2, "Ally ban 2 heroes"⟩,
    ⟨.ban, .enemy, 2, "Enemy ban 2 heroes"⟩,
    ⟨.ban, .ally, 1, "Ally ban 1 hero"⟩,
    ⟨.ban, .enemy, 1, "Enemy ban 1 hero"⟩,
    ⟨.pick, .ally, 1, "Ally pick 1 hero"⟩,
    ⟨.pick, .enemy, 2, "Enemy pick 2 heroes"⟩,
    ⟨.pick, .ally, 2, "Ally pick 2 heroes"⟩,
    ⟨.pick, .enemy, 1, "Enemy pick 1 hero"⟩,
    ⟨.ban, .enemy, 1, "Enemy ban 1 hero"⟩,
    ⟨.ban, .ally, 1, "Ally ban 1 hero"⟩,
    ⟨.ban, .enemy, 1, "Enemy ban 1 hero"⟩,
    ⟨.ban, .ally, 1, "Ally ban 1 hero"⟩,
    ⟨.pick, .enemy, 1, "Enemy pick 1 hero"⟩,
    ⟨.pick, .ally, 2, "Ally pick 2 last heroes"⟩,
    ⟨.pick, .enemy, 1, "Enemy pick 1 last hero"⟩ ]

/-- `ROLE_COUNT` from `draft_v2_engine.py`. -/
def roleCount : Nat := 5

/-- `_clamp(x, lo, hi) = max(lo, min(hi, x))`. -/
def clampQ (x lo hi : ℚ) : ℚ := max lo (min hi x)

/-- Round a rational to the nearest integer, halves to even (the rounding
of CPython's `round`). -/
def roundInt (y : ℚ) : ℤ :=
  if y - Int.floor y > 1 / 2 then Int.floor y + 1
  else if y - Int.floor y < 1 / 2 then Int.floor y
  else if Int.floor y % 2 = 0 then Int.floor y else Int.floor y + 1

/-- Python `round(x, d)`: round half to even at `d` decimal places (all
float values in this development are modelled as exact rationals). -/
def roundTo (d : Nat) (x : ℚ) : ℚ :=
  (roundInt (x * (10 : ℚ) ^ d) : ℚ) / (10 : ℚ) ^ d

/-- Whitespace as stripped by Python's `str.strip()`. -/
def isPySpace (c : Char) : Bool := c == ' ' || c == '\t' || c == '\n' || c == '\r'

/-- ASCII lower-casing of one character, as `str.lower()` acts on the hero
names that occur in the data. -/
def lowerChar (c : Char) : Char :=
  if 65 ≤ c.toNat ∧ c.toNat ≤ 90 then Char.ofNat (c.toNat + 32) else c

/-- `_norm_hero(value) = str(value or "").strip().lower()` (structural on
the character list, so that it evaluates inside the kernel). -/
def normHero (s : String) : String :=
  ⟨((s.data.dropWhile isPySpace).reverse.dropWhile isPySpace).reverse.map lowerChar⟩

instance {ε α : Type} [DecidableEq ε] [DecidableEq α] : DecidableEq (Except ε α) :=
  fun a b =>
    match a, b with
    | .ok x, .ok y =>
      if h : x = y then .isTrue (by rw [h])
      else .isFalse (by intro hc; injection hc; exact h (by assumption))
    | .error x, .error y =>
      if h : x = y then .isTrue (by rw [h])
      else .isFalse (by intro hc; injection hc; exact h (by assumption))
    | .ok _, .error _ => .isFalse (by intro hc; exact Except.noConfusion hc)
    | .error _, .ok _ => .isFalse (by intro hc; exact Except.noConfusion hc)

/-- `_unique_list(values)`: keep first occurrences, drop falsy entries. -/
def uniqueList (l : List String) : List String :=
  l.foldl (fun acc v => if v ≠ "" ∧ v ∉ acc then acc ++ [v] else acc) []

/-- Association-list lookup, modelling a Python dict `d.get(k)` where the
list keeps the dict's insertion order. -/
def alookup {α : Type} (l : List (String × α)) (k : String) : Option α :=
  (l.find? (fun p => p.1 == k)).map (fun p => p.2)

/-- Stable ascending insertion by a `Nat` key: the element is placed after
all earlier elements with a key less than or equal to its own, matching
Python's stable `sorted(..., key=...)`. -/
def stableInsertByKey (key : String → Nat) (x : String) : List String → List String
  | [] => [x]
  | y :: ys => if key y ≤ key x then y :: stableInsertByKey key x ys else x :: y :: ys

/-- Python's stable ascending `sorted(l, key=...)`. -/
def stableSortByKey (key : String → Nat) (l : List String) : List String :=
  l.foldl (fun acc x => stableInsertByKey key x acc) []

/-- Lexicographic comparison of character lists by code point, the order
Python uses on strings. -/
def charsLt : List Char → List Char → Bool
  | [], [] => false
  | [], _ :: _ => true
  | _ :: _, [] => false
  | a :: as, b :: bs =>
    if a.toNat < b.toNat then true
    else if b.toNat < a.toNat then false
    else charsLt as bs

/-- `a < b` on Python strings (code-point lexicographic). -/
def strLt (a b : String) : Bool := charsLt a.data b.data

/-- Ascending insertion of a string, modelling `sorted(...)` on strings. -/
def insertStr (x : String) : List String → List String
  | [] => [x]
  | y :: ys => if strLt x y then x :: y :: ys else y :: insertStr x ys

/-- Python `sorted(...)` on a list of strings. -/
def sortStrAsc (l : List String) : List String :=
  l.foldl (fun acc x => insertStr x acc) []

/-- Descending insertion of a rational, modelling `scores.sort(reverse=True)`. -/
def insertQDesc (x : ℚ) : List ℚ → List ℚ
  | [] => [x]
  | y :: ys => if x > y then x :: y :: ys else y :: insertQDesc x ys

/-- `scores.sort(reverse=True)` for a list of rationals. -/
def sortQDesc (l : List ℚ) : List ℚ :=
  l.foldl (fun acc x => insertQDesc x acc) []

/-- A hero profile, as consumed by the engine (`profiles[hero]` in
`draft_v2_engine.py`); numeric maps are association lists. -/
structure Profile where
  possibleRoles : List String
  rolePower : List (String × ℚ)
  roleMeta : List (String × ℚ)
  baseMeta : ℚ
  bestTierScore : ℚ
  strongAgainst : List (String × ℚ)
  counteredBy : List (String × ℚ)
deriving DecidableEq, Repr

/-- Accumulator of the depth-first matcher in `_assignment_for_side`:
`valid_assignments`, `best_score` (initially `-1`), `best_assignment`
(initially `None`, stored as hero-to-role pairs in dict order) and
`hero_role_options`. -/
structure DfsAcc where
  validAssignments : Nat
  bestScore : ℚ
  bestAssignment : Option (List (String × String))
  heroRoleOptions : List (String × List String)
deriving DecidableEq, Repr

/-- `hero_role_options[h].add(role)` for one `(hero, role)` pair. -/
def addOption (opts : List (String × List String)) (h r : String) :
    List (String × List String) :=
  opts.map (fun hr => if hr.1 = h then (hr.1, if r ∈ hr.2 then hr.2 else hr.2 ++ [r]) else hr)

/-- `for hero_k, role_k in chosen.items(): hero_role_options[hero_k].add(role_k)`. -/
def addOptions (opts : List (String × List String)) (chosen : List (String × String)) :
    List (String × List String) :=
  chosen.foldl (fun o hr => addOption o hr.1 hr.2) opts

/-- One completed matching in the depth-first search: bump the counter,
update the best score and assignment, record the chosen roles. -/
def dfsComplete (chosen : List (String × String)) (score : ℚ) (acc : DfsAcc) : DfsAcc :=
  { validAssignments := acc.validAssignments + 1
    bestScore := if score > acc.bestScore then score else acc.bestScore
    bestAssignment := if score > acc.bestScore then some chosen else acc.bestAssignment
    heroRoleOptions := addOptions acc.heroRoleOptions chosen }

/-- The recursive `dfs(i, score)` of `_assignment_for_side`: walk the
ordered heroes, trying (via the inner `for role, power in candidates[hero]`
loop, a fold) each candidate role of the current hero not yet used. -/
def dfsHeroes (cands : List (String × List (String × ℚ))) :
    List String → List String → List (String × String) → ℚ → DfsAcc → DfsAcc
  | [], _, chosen, score, acc => dfsComplete chosen score acc
  | h :: rest, used, chosen, score, acc =>
    ((alookup cands h).getD []).foldl
      (fun a rp =>
        if rp.1 ∈ used then a
        else dfsHeroes cands rest (used ++ [rp.1]) (chosen ++ [(h, rp.1)]) (score + rp.2) a)
      acc

/-- Result record of `_assignment_for_side`. -/
structure AssignResult where
  isFeasible : Bool
  bestScore : ℚ
  bestAssignment : List (String × String)
  heroToRole : List (String × String)
  openRoles : List String
  validAssignments : Nat
  maxAssignments : Nat
  feasibilityScore : ℚ
  heroRoleOptions : List (String × List String)
deriving DecidableEq, Repr

/-- Candidate `(role, power)` pairs of one hero, as built by
`_assignment_for_side`: roles filtered to the catalogue (falling back to all
roles when empty), powers from `rolePower` with falsy values defaulting to
`0.70`; an unknown hero gets every role at power `0.65`. -/
def heroCandidates (profiles : List (String × Profile)) (roles : List String)
    (h : String) : List (String × ℚ) :=
  match alookup profiles h with
  | some profile =>
    let poss0 := profile.possibleRoles.filter (fun r => r ∈ roles)
    let poss := if poss0 = [] then roles else poss0
    poss.map (fun r =>
      let v := (alookup profile.rolePower r).getD 0
      (r, if v = 0 then 0.70 else v))
  | none => roles.map (fun r => (r, 0.65))

/-- The normalised, deduplicated hero list of `_assignment_for_side`. -/
def solverPicks (heroes : List String) : List String :=
  uniqueList (heroes.map normHero)

/-- The candidate table `candidates` of `_assignment_for_side`. -/
def solverCands (profiles : List (String × Profile)) (roles : List String)
    (picks : List String) : List (String × List (String × ℚ)) :=
  picks.map (fun h => (h, heroCandidates profiles roles h))

/-- The accumulator returned by the full depth-first enumeration of
`_assignment_for_side` (heroes ordered ascending by candidate count). -/
def solverAcc (profiles : List (String × Profile)) (roles : List String)
    (picks : List String) : DfsAcc :=
  let cands := solverCands profiles roles picks
  let order := stableSortByKey (fun h => ((alookup cands h).getD []).length) picks
  dfsHeroes cands order [] [] 0 ⟨0, -1, none, picks.map (fun h => (h, []))⟩

/-- `_assignment_for_side(heroes, profiles, roles)`: the role-feasibility
solver. -/
def assignmentForSide (heroes : List String) (profiles : List (String × Profile))
    (roles : List String) : AssignResult :=
  let picks := solverPicks heroes
  let n := picks.length
  if n = 0 then
    { isFeasible := true, bestScore := 0, bestAssignment := [], heroToRole := []
      openRoles := roles, validAssignments := 1, maxAssignments := 1
      feasibilityScore := 1, heroRoleOptions := [] }
  else
    let acc := solverAcc profiles roles picks
    let maxAssignments := Nat.descFactorial roles.length n
    if acc.validAssignments = 0 then
      { isFeasible := false, bestScore := 0, bestAssignment := [], heroToRole := []
        openRoles := roles, validAssignments := 0, maxAssignments := maxAssignments
        feasibilityScore := 0, heroRoleOptions := picks.map (fun h => (h, [])) }
    else
      let heroToRole := acc.bestAssignment.getD []
      let roleToHero := heroToRole.map (fun p => (p.2, p.1))
      let ratio : ℚ := (acc.validAssignments : ℚ) / (max maxAssignments 1 : ℕ)
      let avgPower : ℚ := acc.bestScore / (max n 1 : ℕ)
      { isFeasible := true
        bestScore := roundTo 6 acc.bestScore
        bestAssignment := roleToHero
        heroToRole := heroToRole
        openRoles := roles.filter (fun r => ¬ roleToHero.any (fun p => p.1 == r))
        validAssignments := acc.validAssignments
        maxAssignments := maxAssignments
        feasibilityScore :=
          roundTo 4 (clampQ ((0.45 * ratio + 0.55 * avgPower) * 100) 0 100 / 100)
        heroRoleOptions := acc.heroRoleOptions.map (fun p => (p.1, sortStrAsc p.2)) }

/-- A normalised draft state (`normalize_draft_state` output), with the two
passthrough string fields (`patch`, `sequenceKey`) omitted. -/
structure DraftState where
  turnIndex : Nat
  actionProgress : Nat
  picksAlly : List String
  picksEnemy : List String
  bansAlly : List String
  bansEnemy : List String
deriving DecidableEq, Repr

/-- `state["picks"][side]`. -/
def DraftState.picks (s : DraftState) : Side → List String
  | .ally => s.picksAlly
  | .enemy => s.picksEnemy

/-- `state["bans"][side]`. -/
def DraftState.bans (s : DraftState) : Side → List String
  | .ally => s.bansAlly
  | .enemy => s.bansEnemy

/-- The current action returned by `_get_current_action`: the scripted step
together with its effective `limit` (an `Int`, since
`remaining + progress` can be negative in unnormalised states). -/
structure Action where
  type : ActType
  side : Side
  count : Nat
  text : String
  limit : Int
deriving DecidableEq, Repr

/-- The effective per-step limit of `_get_current_action`: the scripted
count, capped for pick steps by `max(remaining + progress, 0)` where
`remaining = ROLE_COUNT - len(picks[side])`. -/
def stepLimit (s : DraftState) (act : Step) (progress : Nat) : Int :=
  if act.type = .pick then
    min (act.count : Int) (max (((roleCount : Int) - (s.picks act.side).length) + progress) 0)
  else
    (act.count : Int)

/-- The `while idx < len(DRAFT_V2_SEQUENCE)` loop of `_get_current_action`,
walking the remaining steps (`steps = DRAFT_V2_SEQUENCE[idx:]`): steps whose
effective limit is exhausted are skipped with the progress reset to `0`. -/
def gcaAux (s : DraftState) : List Step → Nat → Nat → Nat × Nat × Option Action
  | [], idx, progress => (idx, progress, none)
  | act :: rest, idx, progress =>
    let limit := stepLimit s act progress
    if limit ≤ 0 ∨ (progress : Int) ≥ limit then gcaAux s rest (idx + 1) 0
    else (idx, progress, some ⟨act.type, act.side, act.count, act.text, limit⟩)

/-- `_get_current_action(state)`. -/
def getCurrentAction (s : DraftState) : Nat × Nat × Option Action :=
  gcaAux s (draftV2Sequence.drop s.turnIndex) s.turnIndex s.actionProgress

/-- Append a hero to the acting side's pick or ban list. -/
def appendHero (s : DraftState) (act : Action) (hero : String) : DraftState :=
  match act.type, act.side with
  | .pick, .ally => { s with picksAlly := s.picksAlly ++ [hero] }
  | .pick, .enemy => { s with picksEnemy := s.picksEnemy ++ [hero] }
  | .ban, .ally => { s with bansAlly := s.bansAlly ++ [hero] }
  | .ban, .enemy => { s with bansEnemy := s.bansEnemy ++ [hero] }

/-- `_apply_action(state, hero)`: no-op when the sequence is complete or the
hero already appears anywhere in the state; otherwise append the hero for
the current action, bump the progress, and promote `turnIndex` and
`actionProgress` to the next live action. -/
def applyAction (s : DraftState) (hero : String) : DraftState :=
  match getCurrentAction s with
  | (_, _, none) => s
  | (idx, progress, some act) =>
    if hero ∈ s.picksAlly ∨ hero ∈ s.picksEnemy then s
    else if hero ∈ s.bansAlly ∨ hero ∈ s.bansEnemy then s
    else
      let out := appendHero s act hero
      let out := { out with turnIndex := idx, actionProgress := progress + 1 }
      let next := getCurrentAction out
      { out with turnIndex := next.1, actionProgress := next.2.1 }

/-- A raw `picks[side]` / `bans[side]` / `heroes` value as the engine reads
it from the JSON payload: absent (`None`), an array of strings, a legacy
object mapping role names to hero names, or a value of any other shape. -/
inductive RawSide where
  | missing
  | arr (xs : List String)
  | obj (kvs : List (String × String))
  | invalid
deriving DecidableEq, Repr

/-- `_parse_side_heroes(raw)`. -/
def parseSideHeroes : RawSide → Except String (List String)
  | .missing => .ok []
  | .arr xs => .ok (uniqueList ((xs.map normHero).filter (fun v => v ≠ "")))
  | .obj kvs => .ok (uniqueList ((kvs.map (fun kv => normHero kv.2)).filter (fun v => v ≠ "")))
  | .invalid => .error ("Side picks/bans must be array (or object for legacy picks)")

/-- A raw `picks` / `bans` payload field: absent (treated as `{}`), an
object with (possibly absent) `ally` / `enemy` entries, or a non-object. -/
inductive RawDict where
  | missing
  | dict (ally enemy : RawSide)
  | invalid
deriving DecidableEq, Repr

/-- The fields of a `/draft/v2/recommend` payload that
`normalize_draft_state` reads (`turnIndex` and `actionProgress` after the
`int(... or 0)` coercion). -/
structure RecPayload where
  picks : RawDict
  bans : RawDict
  turnIndex : Int
  actionProgress : Int
deriving DecidableEq, Repr

/-- `raw.get("ally")` / `raw.get("enemy")` on a raw picks/bans object (an
absent dict and an absent key both read as `None`). -/
def rawSideOf (d : RawDict) (side : Side) : RawSide :=
  match d, side with
  | .missing, _ => .missing
  | .dict a _, .ally => a
  | .dict _ e, .enemy => e
  | .invalid, _ => .missing

/-- `normalize_draft_state(payload)`. -/
def normalizeDraftState (p : RecPayload) : Except String DraftState :=
  match p.picks with
  | .invalid => .error ("Field picks must be an object with ally/enemy")
  | _ =>
    match p.bans with
    | .invalid => .error ("Field bans must be an object with ally/enemy")
    | _ =>
      match parseSideHeroes (rawSideOf p.picks .ally),
          parseSideHeroes (rawSideOf p.picks .enemy),
          parseSideHeroes (rawSideOf p.bans .ally),
          parseSideHeroes (rawSideOf p.bans .enemy) with
      | .ok pa, .ok pe, .ok ba, .ok be =>
        if pa.length > roleCount ∨ pe.length > roleCount then
          .error ("Each side can have max 5 picks")
        else if pa.any (fun x => x ∈ pe) then
          .error ("A hero cannot be picked by both teams")
        else if (pa ++ pe).any (fun x => x ∈ ba ∨ x ∈ be) then
          .error ("A hero cannot be both picked and banned")
        else
          .ok { turnIndex := (max p.turnIndex 0).toNat
                actionProgress := (max p.actionProgress 0).toNat
                picksAlly := pa, picksEnemy := pe, bansAlly := ba, bansEnemy := be }
      | .error e, _, _, _ => .error e
      | _, .error e, _, _ => .error e
      | _, _, .error e, _ => .error e
      | _, _, _, .error e => .error e

/-- One phase's component weights (`DRAFT_V2_SCORING["phaseWeights"][phase]`). -/
structure Weights where
  meta : ℚ
  counter : ℚ
  synergy : ℚ
  deny : ℚ
  flex : ℚ
  feasibility : ℚ
deriving DecidableEq, Repr

/-- `DRAFT_V2_SCORING["phaseWeights"]` from `draft_v2.py`; an unknown phase
name yields the all-zero weights of `(... or {}).get(key, 0.0)`. -/
def phaseWeightsFor (phase : String) : Weights :=
  if phase = "early" then ⟨0.40, 0.11, 0.06, 0.14, 0.15, 0.14⟩
  else if phase = "mid" then ⟨0.29, 0.27, 0.18, 0.12, 0.09, 0.05⟩
  else if phase = "late" then ⟨0.18, 0.32, 0.23, 0.09, 0.01, 0.17⟩
  else ⟨0, 0, 0, 0, 0, 0⟩

/-- `_phase_name(pick_count)`. -/
def phaseName (pickCount : Nat) : String :=
  if pickCount ≤ 2 then "early" else if pickCount ≤ 4 then "mid" else "late"

/-- The six numeric components of a candidate evaluation. -/
structure Components where
  meta : ℚ
  counter : ℚ
  synergy : ℚ
  deny : ℚ
  flex : ℚ
  feasibility : ℚ
deriving DecidableEq, Repr

/-- `max(list, default=d)` over rationals. -/
def listMax (l : List ℚ) (d : ℚ) : ℚ :=
  match l with
  | [] => d
  | x :: xs => xs.foldl max x

/-- `predicted_roles`: the hero's feasible-role options after the
hypothetical pick, falling back to its `possibleRoles` when falsy. -/
def predictedRolesOf (nextAssign : AssignResult) (hero : String) (p : Profile) :
    List String :=
  let opts := (alookup nextAssign.heroRoleOptions hero).getD []
  if opts = [] then p.possibleRoles else opts

/-- The `meta` fallback chain `roleMeta.get(r) or baseMeta or 50.0` for one
role (where Python's `or` treats `0.0` as falsy). -/
def roleMetaValue (p : Profile) (r : String) : ℚ :=
  let fb := if p.baseMeta = 0 then 50 else p.baseMeta
  match alookup p.roleMeta r with
  | some v => if v = 0 then fb else v
  | none => fb

/-- The `meta` component: the best `role_meta` over the predicted roles,
with `max(..., default=float(baseMeta or 50.0))`. -/
def metaComponent (p : Profile) (predicted : List String) : ℚ :=
  listMax (predicted.map (roleMetaValue p)) (if p.baseMeta = 0 then 50 else p.baseMeta)

/-- The `counter` component against the enemy picks. -/
def counterComponent (p : Profile) (enemyPicks : List String) : ℚ :=
  if enemyPicks = [] then 50
  else
    let diffs := enemyPicks.map (fun e =>
      (((alookup p.strongAgainst e).getD 0) - ((alookup p.counteredBy e).getD 0)) * 100)
    clampQ (50 + (diffs.sum / (diffs.length : ℚ)) * 0.60) 0 100

/-- The `synergy` component, from the solver results without and with the
candidate (`len(... or roles)` treats an empty open-role list as falsy). -/
def synergyComponent (curAssign nextAssign : AssignResult) (roles : List String) : ℚ :=
  if ¬ nextAssign.isFeasible then 0
  else
    let curOpen := if curAssign.openRoles = [] then roles.length else curAssign.openRoles.length
    let nxtOpen := if nextAssign.openRoles = [] then roles.length else nextAssign.openRoles.length
    let coverageGain : Nat := curOpen - nxtOpen
    let flexGain := nextAssign.feasibilityScore - curAssign.feasibilityScore
    clampQ (45 + (coverageGain : ℚ) * 16 + flexGain * 65) 0 100

/-- The `deny` component over the side's own picks. -/
def denyComponent (p : Profile) (myPicks : List String) (meta : ℚ) : ℚ :=
  if myPicks ≠ [] then
    let threat := myPicks.map (fun q => ((alookup p.strongAgainst q).getD 0) * 100)
    clampQ (threat.sum / (threat.length : ℚ)) 0 100
  else clampQ (0.65 * meta) 0 100

/-- The `flex` component `((|possible_roles| - 1) / max(|roles| - 1, 1)) · 100`. -/
def flexComponent (p : Profile) (roles : List String) : ℚ :=
  clampQ (((p.possibleRoles.length : ℚ) - 1) / max ((roles.length : ℚ) - 1) 1 * 100) 0 100

/-- The `feasibility` component `feasibility_score_after · 100`. -/
def feasComponent (nextAssign : AssignResult) : ℚ :=
  nextAssign.feasibilityScore * 100

/-- The six (un-rounded) components computed by `_evaluate_pick_candidate`
for `(state, side, hero)`, given the hero's profile `p` and the two solver
results for the side's picks without and with the candidate. -/
def componentsOf (state : DraftState) (side : Side) (hero : String) (p : Profile)
    (curAssign nextAssign : AssignResult) (roles : List String) : Components :=
  let meta := metaComponent p (predictedRolesOf nextAssign hero p)
  ⟨meta,
   counterComponent p (state.picks (oppositeSide side)),
   synergyComponent curAssign nextAssign roles,
   denyComponent p (state.picks side) meta,
   flexComponent p roles,
   feasComponent nextAssign⟩

/-- `base_score = Σ weight_c · component_c` for the given phase. -/
def blendOf (c : Components) (phase : String) : ℚ :=
  let w := phaseWeightsFor phase
  w.meta * c.meta + w.counter * c.counter + w.synergy * c.synergy +
    w.deny * c.deny + w.flex * c.flex + w.feasibility * c.feasibility

/-- A candidate evaluation record (`_evaluate_pick_candidate` output); the
`lookaheadPenalty` debug field defaults to `0`. -/
structure Eval where
  hero : String
  tierScore : ℚ
  predictedRoles : List String
  components : Components
  phase : String
  baseScore : ℚ
  score : ℚ
  reasons : List String
  lookaheadPenalty : ℚ
deriving DecidableEq, Repr

/-- The up-to-three human-readable reasons of `_evaluate_pick_candidate`. -/
def reasonsOf (counter synergy flex : ℚ) : List String :=
  let rs :=
    (if counter ≥ 62 then ["Counter positif terhadap draft lawan saat ini"] else []) ++
    (if synergy ≥ 62 then ["Menjaga komposisi role tetap fleksibel dan feasible"] else []) ++
    (if flex ≥ 45 then ["Hero flex untuk beberapa role"] else [])
  (if rs = [] then ["Stabil sebagai pick aman berdasarkan meta saat ini"] else rs).take 3

/-- `_evaluate_pick_candidate(state, side, hero, profiles, roles)`; the
falsy empty dict returned for an unknown hero is modelled as `none`. -/
def evaluatePickCandidate (state : DraftState) (side : Side) (hero : String)
    (profiles : List (String × Profile)) (roles : List String) : Option Eval :=
  match alookup profiles hero with
  | none => none
  | some p =>
    let curAssign := assignmentForSide (state.picks side) profiles roles
    let nextPicks := state.picks side ++ [hero]
    let nextAssign := assignmentForSide nextPicks profiles roles
    let c := componentsOf state side hero p curAssign nextAssign roles
    let phase := phaseName nextPicks.length
    let final := blendOf c phase
    some
      { hero := hero
        tierScore := if p.bestTierScore = 0 then 45 else p.bestTierScore
        predictedRoles := predictedRolesOf nextAssign hero p
        components :=
          ⟨roundTo 4 c.meta, roundTo 4 c.counter, roundTo 4 c.synergy,
           roundTo 4 c.deny, roundTo 4 c.flex, roundTo 4 c.feasibility⟩
        phase := phase
        baseScore := roundTo 6 final
        score := roundTo 6 final
        reasons := reasonsOf c.counter c.synergy c.flex
        lookaheadPenalty := 0 }

/-- The legal candidate pool `profiles.keys \ (picks ∪ bans)`, in the
profile store's insertion order. -/
def candidateHeroes (state : DraftState) (profiles : List (String × Profile)) :
    List String :=
  (profiles.map (fun p => p.1)).filter (fun h =>
    ¬ (h ∈ state.picksAlly ∨ h ∈ state.picksEnemy) ∧
    ¬ (h ∈ state.bansAlly ∨ h ∈ state.bansEnemy))

/-- The descending-sorted list of enemy candidate base scores under the
simulated state (candidates with non-positive feasibility are skipped) —
the `scores` list of `_enemy_best_response_score`. -/
def enemyCandidateScores (stateAfterPick : DraftState) (actingSide : Side)
    (profiles : List (String × Profile)) (roles : List String) : List ℚ :=
  sortQDesc ((candidateHeroes stateAfterPick profiles).filterMap (fun h =>
    match evaluatePickCandidate stateAfterPick (oppositeSide actingSide) h profiles roles with
    | none => none
    | some ev => if ev.components.feasibility ≤ 0 then none else some ev.baseScore))

/-- `_enemy_best_response_score(state_after_pick, acting_side, ...)`: the
mean of the top `top_n` enemy candidate base scores under the simulated
state. -/
def enemyBestResponseScore (stateAfterPick : DraftState) (actingSide : Side)
    (profiles : List (String × Profile)) (roles : List String) (topN : Int) : ℚ :=
  let cands := candidateHeroes stateAfterPick profiles
  if cands = [] then 0
  else
    let sorted := enemyCandidateScores stateAfterPick actingSide profiles roles
    if sorted = [] then 0
    else (sorted.take (max topN 1).toNat).sum /
      ((max (min topN (sorted.length : Int)) 1 : ℤ) : ℚ)

/-- Descending stable insertion by a lexicographic `(ℚ, ℚ)` key, matching
Python's stable `sort(key=..., reverse=True)`. -/
def insertEvalDesc (key : Eval → ℚ × ℚ) (x : Eval) : List Eval → List Eval
  | [] => [x]
  | y :: ys =>
    if (key y).1 < (key x).1 ∨ ((key y).1 = (key x).1 ∧ (key y).2 < (key x).2) then
      x :: y :: ys
    else y :: insertEvalDesc key x ys

/-- Python's stable `evals.sort(key=..., reverse=True)`. -/
def sortEvalsDesc (key : Eval → ℚ × ℚ) (l : List Eval) : List Eval :=
  l.foldl (fun acc x => insertEvalDesc key x acc) []

/-- The lookahead configuration (`{**LOOKAHEAD_DEFAULT, **payload_cfg}`). -/
structure LookaheadCfg where
  enabled : Bool
  beamWidth : Int
  enemyTopN : Int
  penaltyFactor : ℚ
deriving DecidableEq, Repr

/-- `LOOKAHEAD_DEFAULT`. -/
def lookaheadDefault : LookaheadCfg := ⟨true, 6, 4, 0.25⟩

/-- `True` when the simulated current action exists, is a pick, and belongs
to the other side — the condition guarding the lookahead penalty. -/
def isEnemyPickNext (nact : Option Action) (side : Side) : Bool :=
  match nact with
  | some a => a.type == .pick && a.side != side
  | none => false

/-- The simulated state of the lookahead: `_apply_action`, with
`turnIndex`/`actionProgress` set to the re-derived current action. -/
def simPromote (s : DraftState) (hero : String) : DraftState :=
  let simulated := applyAction s hero
  let next := getCurrentAction simulated
  { simulated with turnIndex := next.1, actionProgress := next.2.1 }

/-- The per-candidate body of the lookahead loop in `_recommend_pick`:
simulate the pick, and when the next action is an enemy pick penalise the
base score by `penalty_factor` times the enemy best response. -/
def lookaheadUpdate (state : DraftState) (side : Side)
    (profiles : List (String × Profile)) (roles : List String)
    (cfg : LookaheadCfg) (ev : Eval) : Eval :=
  let next := getCurrentAction (applyAction state ev.hero)
  if isEnemyPickNext next.2.2 side then
    let enemyResp :=
      enemyBestResponseScore (simPromote state ev.hero) side profiles roles cfg.enemyTopN
    { ev with
      score := roundTo 6 (ev.baseScore - cfg.penaltyFactor * enemyResp)
      lookaheadPenalty := roundTo 6 (cfg.penaltyFactor * enemyResp) }
  else { ev with score := ev.baseScore }

/-- The evaluated, feasibility-filtered candidate list of `_recommend_pick`,
sorted descending by `(tierScore, baseScore)`. -/
def pickEvals (state : DraftState) (side : Side)
    (profiles : List (String × Profile)) (roles : List String) : List Eval :=
  sortEvalsDesc (fun x => (x.tierScore, x.baseScore))
    ((candidateHeroes state profiles).filterMap (fun hero =>
      match evaluatePickCandidate state side hero profiles roles with
      | none => none
      | some ev => if ev.components.feasibility ≤ 0 then none else some ev))

/-- `_recommend_pick(state, action, profiles, roles, lookahead_cfg)`. -/
def recommendPick (state : DraftState) (side : Side)
    (profiles : List (String × Profile)) (roles : List String)
    (cfg : LookaheadCfg) : List Eval :=
  let evals := pickEvals state side profiles roles
  if evals = [] then []
  else
    let evals2 :=
      if cfg.enabled then
        let bw := (max cfg.beamWidth 1).toNat
        (evals.take bw).map (lookaheadUpdate state side profiles roles cfg) ++ evals.drop bw
      else evals
    (sortEvalsDesc (fun x => (x.tierScore, x.score)) evals2).take 6

/-- The `role_fit` list of the ban branch: the sorted intersection of the
candidate's possible roles with the enemy's open roles, falling back (via
Python's falsy `or`) to the full `poss` list when the intersection is
empty. -/
def banRoleFit (poss enemyOpen : List String) : List String :=
  let fit := sortStrAsc (poss.filter (fun r => r ∈ enemyOpen))
  if fit = [] then poss else fit

/-- The candidate's `poss` list in the ban branch:
`(profiles.get(hero) or {}).get("possibleRoles") or roles`. -/
def banPoss (profiles : List (String × Profile)) (roles : List String)
    (hero : String) : List String :=
  match alookup profiles hero with
  | some p => if p.possibleRoles = [] then roles else p.possibleRoles
  | none => roles

/-- The enemy's open roles used by the ban branch:
`set(enemy_assign.get("openRoles") or roles)`. -/
def banEnemyOpen (state : DraftState) (side : Side)
    (profiles : List (String × Profile)) (roles : List String) : List String :=
  let enemyAssign := assignmentForSide (state.picks (oppositeSide side)) profiles roles
  if enemyAssign.openRoles = [] then roles else enemyAssign.openRoles

/-- The per-candidate body of `_recommend_ban`: evaluate the candidate as
an enemy pick and add the role-fit bonus. -/
def banCandidate (state : DraftState) (enemySide : Side) (enemyOpen : List String)
    (profiles : List (String × Profile)) (roles : List String) (hero : String) :
    Option Eval :=
  let roleFit := banRoleFit (banPoss profiles roles hero) enemyOpen
  if roleFit = [] then none
  else
    match evaluatePickCandidate state enemySide hero profiles roles with
    | none => none
    | some asEnemy =>
      let fitBonus := clampQ ((roleFit.length : ℚ) / (max roles.length 1 : ℕ) * 15) 0 100
      some { asEnemy with
        score := roundTo 6 (asEnemy.baseScore + fitBonus)
        baseScore := roundTo 6 (asEnemy.baseScore + fitBonus)
        predictedRoles := roleFit
        reasons :=
          [ "Deny power pick lawan berdasarkan meta saat ini",
            "Role hero cocok dengan kebutuhan role lawan" ] }

/-- `_recommend_ban(state, action, profiles, roles)`. -/
def recommendBan (state : DraftState) (side : Side)
    (profiles : List (String × Profile)) (roles : List String) : List Eval :=
  let recs := (candidateHeroes state profiles).filterMap
    (banCandidate state (oppositeSide side) (banEnemyOpen state side profiles roles)
      profiles roles)
  (sortEvalsDesc (fun x => (x.tierScore, x.score)) recs).take 12

/-- The fields of a `/draft/v2/assign` payload that `assign_from_payload`
reads: `heroes` (absent = `None`), the fallback `picks` object and the
`side` string. -/
structure AssignPayload where
  heroes : RawSide
  picks : RawDict
  side : Option String
deriving DecidableEq, Repr

/-- `str(payload.get("side") or "ally").strip().lower()`. -/
def assignSideName (s : Option String) : String :=
  match s with
  | none => "ally"
  | some v => if v = "" then "ally" else normHero v

/-- The result block of `assign_from_payload` (warnings and debug echo
omitted). -/
structure AssignOut where
  heroes : List String
  roles : List String
  assignment : AssignResult
deriving DecidableEq, Repr

/-- The raw `heroes` value used by `assign_from_payload`: the `heroes`
field when present, otherwise `picks[side]` where an invalid side name is
silently replaced by `"ally"`. -/
def assignHeroesRaw (p : AssignPayload) : Except String RawSide :=
  match p.heroes with
  | .missing =>
    let sideName := assignSideName p.side
    let side : Side := if sideName = "enemy" then .enemy else .ally
    match p.picks with
    | .missing => .ok (.arr [])
    | .dict a e => .ok (match side with | .ally => a | .enemy => e)
    | .invalid => .error ("picks must be an object")
  | raw => .ok raw

/-- `assign_from_payload(payload)`: when `heroes` is absent, the side name
is normalised and silently coerced to `"ally"` unless it is exactly
`"ally"` or `"enemy"`, and the heroes are taken from `picks[side]`. -/
def assignFromPayload (profiles : List (String × Profile)) (roles : List String)
    (p : AssignPayload) : Except String AssignOut :=
  match assignHeroesRaw p with
  | .error e => .error e
  | .ok raw =>
    match parseSideHeroes raw with
    | .error e => .error e
    | .ok heroes =>
      if heroes.length > roleCount then .error ("heroes length cannot exceed 5")
      else
        .ok { heroes := heroes, roles := roles
              assignment := assignmentForSide heroes profiles roles }

/-- The typed errors of the draft engine (`DraftV2ConfigError`,
`DraftV2RequestError`, and any other unexpected exception). -/
inductive DraftError where
  | config (msg : String)
  | request (msg : String)
  | internal (msg : String)
deriving DecidableEq, Repr

/-- The HTTP status with which the `POST /api/draft/v2/assign` handler in
`app/main.py` surfaces an exception raised by `assign_from_payload`: the
clause `except (DraftV2ConfigError, DraftV2RequestError)` maps both typed
errors to `400`, and the catch-all maps anything else to `500`. -/
def draftV2AssignStatus : DraftError → Nat
  | .config _ => 400
  | .request _ => 400
  | .internal _ => 500

/-- The HTTP status used by the `POST /api/draft/v2/recommend` handler,
with the same two `except` clauses as the assign handler. -/
def draftV2RecommendStatus : DraftError → Nat
  | .config _ => 400
  | .request _ => 400
  | .internal _ => 500

/-- The HTTP status used by the `GET /api/draft/v2/meta` handler: only
`DraftV2ConfigError` is caught (as `500`); anything else propagates to the
framework. -/
def draftV2MetaStatus : DraftError → Option Nat
  | .config _ => some 500
  | _ => none

/-! ### General lemmas about the numeric and list helpers -/

theorem alookup_mem {α : Type} {l : List (String × α)} {k : String} {v : α}
    (h : alookup l k = some v) : ∃ p ∈ l, p.1 = k ∧ p.2 = v := by
  unfold alookup at h
  rw [Option.map_eq_some'] at h
  obtain ⟨q, hq, hv⟩ := h
  have hm := List.mem_of_find?_eq_some hq
  have hk := List.find?_some hq
  exact ⟨q, hm, by simpa using hk, hv⟩

theorem roundInt_intCast (k : ℤ) : roundInt (k : ℚ) = k := by
  unfold roundInt
  rw [Int.floor_intCast]
  norm_num

theorem le_roundInt {y : ℚ} {a : ℤ} (h : (a : ℚ) ≤ y) : a ≤ roundInt y := by
  have hf : a ≤ Int.floor y := Int.le_floor.mpr h
  unfold roundInt
  split_ifs <;> omega

theorem roundInt_le {y : ℚ} {b : ℤ} (h : y ≤ (b : ℚ)) : roundInt y ≤ b := by
  have hf : Int.floor y ≤ b := by
    have h1 : (Int.floor y : ℚ) ≤ (b : ℚ) := le_trans (Int.floor_le y) h
    exact_mod_cast h1
  have hstep : ∀ hr : ¬ (y - Int.floor y < 1 / 2), Int.floor y + 1 ≤ b := by
    intro hr
    have h2 : (Int.floor y : ℚ) < y := by
      push_neg at hr
      nlinarith [hr]
    have h3 : (Int.floor y : ℚ) < (b : ℚ) := lt_of_lt_of_le h2 h
    have h4 : Int.floor y < b := by exact_mod_cast h3
    omega
  unfold roundInt
  split_ifs with h1 h2 h3
  · exact hstep (by linarith)
  · exact hf
  · exact hf
  · exact hstep h2

theorem pow10_pos (d : Nat) : (0 : ℚ) < (10 : ℚ) ^ d := by positivity

theorem le_roundTo {d : Nat} {x : ℚ} {a : ℤ} (h : (a : ℚ) ≤ x * (10 : ℚ) ^ d) :
    (a : ℚ) / (10 : ℚ) ^ d ≤ roundTo d x := by
  unfold roundTo
  have h1 := le_roundInt h
  exact (div_le_div_iff_of_pos_right (pow10_pos d)).mpr (by exact_mod_cast h1)

theorem roundTo_le {d : Nat} {x : ℚ} {b : ℤ} (h : x * (10 : ℚ) ^ d ≤ (b : ℚ)) :
    roundTo d x ≤ (b : ℚ) / (10 : ℚ) ^ d := by
  unfold roundTo
  have h1 := roundInt_le h
  exact (div_le_div_iff_of_pos_right (pow10_pos d)).mpr (by exact_mod_cast h1)

theorem roundTo_eq_self {d : Nat} {x : ℚ} {k : ℤ} (h : x * (10 : ℚ) ^ d = (k : ℚ)) :
    roundTo d x = x := by
  unfold roundTo
  rw [h, roundInt_intCast]
  field_simp at h ⊢
  linarith [h]

theorem roundTo_nonneg {d : Nat} {x : ℚ} (h : 0 ≤ x) : 0 ≤ roundTo d x := by
  have h0 : ((0 : ℤ) : ℚ) ≤ x * (10 : ℚ) ^ d := by
    have := pow10_pos d
    push_cast
    nlinarith
  have := le_roundTo h0
  simpa using this

theorem clampQ_le_hi {x lo hi : ℚ} (h : lo ≤ hi) : clampQ x lo hi ≤ hi := by
  unfold clampQ
  exact max_le h (min_le_left _ _)

theorem lo_le_clampQ {x lo hi : ℚ} : lo ≤ clampQ x lo hi := le_max_left _ _

/-- `_clamp(v*100, 0, 100)/100` equals clamping `v` into `[0, 1]`. -/
theorem clamp_mul100_div100 (v : ℚ) :
    clampQ (v * 100) 0 100 / 100 = clampQ v 0 1 := by
  unfold clampQ
  rcases le_total v 0 with h0 | h0
  · rw [min_eq_right (by linarith), min_eq_right (by linarith),
      max_eq_left (by linarith), max_eq_left (by linarith)]
    norm_num
  · rcases le_total v 1 with h1 | h1
    · rw [min_eq_right (by linarith), min_eq_right (by linarith),
        max_eq_right (by linarith), max_eq_right (by linarith)]
      ring
    · rw [min_eq_left (by linarith), min_eq_left (by linarith),
        max_eq_right (by linarith), max_eq_right (by norm_num)]
      norm_num

/-- Rationals that are integer multiples of `1 / 10000` — the grid on which
the store's 4-decimal-rounded role powers live (stated through the reduced
denominator, so that it is decidable). -/
def Grid4 (q : ℚ) : Prop := (q * 10000).den = 1

instance (q : ℚ) : Decidable (Grid4 q) := by unfold Grid4; infer_instance

theorem Grid4.exists_int {q : ℚ} (h : Grid4 q) : ∃ k : ℤ, q = (k : ℚ) / 10000 := by
  refine ⟨(q * 10000).num, ?_⟩
  have h1 : (((q * 10000).num : ℤ) : ℚ) = q * 10000 := by
    exact_mod_cast (Rat.den_eq_one_iff _).mp h
  rw [h1]
  ring

theorem Grid4.of_int {q : ℚ} {k : ℤ} (h : q = (k : ℚ) / 10000) : Grid4 q := by
  unfold Grid4
  rw [h]
  have : (k : ℚ) / 10000 * 10000 = (k : ℚ) := by ring
  rw [this, Rat.den_intCast]

theorem Grid4.add {a b : ℚ} (ha : Grid4 a) (hb : Grid4 b) : Grid4 (a + b) := by
  obtain ⟨k, hk⟩ := ha.exists_int
  obtain ⟨m, hm⟩ := hb.exists_int
  exact Grid4.of_int (k := k + m) (by rw [hk, hm]; push_cast; ring)

theorem Grid4.zero : Grid4 0 := Grid4.of_int (k := 0) (by norm_num)

theorem Grid4.roundTo6 {q : ℚ} (h : Grid4 q) : roundTo 6 q = q := by
  obtain ⟨k, hk⟩ := h.exists_int
  exact roundTo_eq_self (k := k * 100) (by rw [hk]; push_cast; ring)

theorem foldl_max_le {B : ℚ} :
    ∀ (l : List ℚ) (a : ℚ), a ≤ B → (∀ x ∈ l, x ≤ B) → l.foldl max a ≤ B
  | [], _, ha, _ => ha
  | y :: ys, a, ha, h =>
    foldl_max_le ys (max a y) (max_le ha (h y (by simp)))
      (fun z hz => h z (by simp [hz]))

theorem le_foldl_max {b : ℚ} :
    ∀ (l : List ℚ) (a : ℚ), b ≤ a → b ≤ l.foldl max a
  | [], _, ha => ha
  | y :: ys, a, ha => le_foldl_max ys (max a y) (le_trans ha (le_max_left _ _))

theorem listMax_le {l : List ℚ} {d B : ℚ} (hl : ∀ x ∈ l, x ≤ B) (hd : d ≤ B) :
    listMax l d ≤ B := by
  unfold listMax
  cases l with
  | nil => exact hd
  | cons x xs =>
    exact foldl_max_le xs x (hl x (by simp)) (fun z hz => hl z (by simp [hz]))

theorem le_listMax {l : List ℚ} {d B : ℚ} (hl : ∀ x ∈ l, B ≤ x) (hd : B ≤ d) :
    B ≤ listMax l d := by
  unfold listMax
  cases l with
  | nil => exact hd
  | cons x xs => exact le_foldl_max xs x (hl x (by simp))

/-! ### Lemmas about the sequence walker -/

theorem gcaAux_fst_ge (s : DraftState) (l : List Step) :
    ∀ (idx progress : Nat), idx ≤ (gcaAux s l idx progress).1 := by
  induction l with
  | nil => intro idx progress; exact le_refl idx
  | cons act rest ih =>
    intro idx progress
    unfold gcaAux
    dsimp only
    split
    · exact le_trans (Nat.le_succ idx) (ih (idx + 1) 0)
    · exact le_refl idx

theorem gcaAux_snd_of_fst_eq (s : DraftState) (l : List Step) :
    ∀ (idx progress : Nat), (gcaAux s l idx progress).1 = idx →
      (gcaAux s l idx progress).2.1 = progress := by
  induction l with
  | nil => intro idx progress _; rfl
  | cons act rest ih =>
    intro idx progress
    unfold gcaAux
    dsimp only
    split
    · intro hfst
      have := gcaAux_fst_ge s rest (idx + 1) 0
      omega
    · intro _; rfl

/-! ### Lemmas about the role-feasibility solver -/

theorem roundTo_zero (d : Nat) : roundTo d 0 = 0 := by
  have := roundTo_eq_self (d := d) (x := 0) (k := 0) (by norm_num)
  simpa using this

/-- The solver invariant: the running best score stays on the `1/10000`
grid (it starts at `-1`), and is non-negative as soon as at least one
matching has been counted. -/
def AccInv (acc : DfsAcc) : Prop :=
  Grid4 acc.bestScore ∧ (0 < acc.validAssignments → 0 ≤ acc.bestScore)

theorem dfsComplete_inv (chosen : List (String × String)) (score : ℚ) (acc : DfsAcc)
    (hg : Grid4 score) (hnn : 0 ≤ score) (hacc : AccInv acc) :
    AccInv (dfsComplete chosen score acc) := by
  unfold dfsComplete AccInv
  dsimp only
  constructor
  · split_ifs with hgt
    · exact hg
    · exact hacc.1
  · intro _
    split_ifs with hgt
    · exact hnn
    · push_neg at hgt
      linarith

theorem foldl_preserves {α β : Type} {P : α → Prop} (f : α → β → α) :
    ∀ (l : List β) (a : α), P a → (∀ x ∈ l, ∀ acc, P acc → P (f acc x)) →
      P (l.foldl f a)
  | [], _, h0, _ => h0
  | x :: xs, a, h0, hf =>
    foldl_preserves f xs (f a x) (hf x (by simp) a h0)
      (fun y hy acc hacc => hf y (by simp [hy]) acc hacc)

theorem dfsHeroes_inv (cands : List (String × List (String × ℚ)))
    (hc : ∀ pc ∈ cands, ∀ rp ∈ pc.2, Grid4 rp.2 ∧ 0 ≤ rp.2) :
    ∀ (heroes used : List String) (chosen : List (String × String))
      (score : ℚ) (acc : DfsAcc), Grid4 score → 0 ≤ score → AccInv acc →
      AccInv (dfsHeroes cands heroes used chosen score acc) := by
  intro heroes
  induction heroes with
  | nil =>
    intro used chosen score acc hg hnn hacc
    unfold dfsHeroes
    exact dfsComplete_inv _ _ _ hg hnn hacc
  | cons h rest ihh =>
    intro used chosen score acc hg hnn hacc
    unfold dfsHeroes
    refine foldl_preserves _ _ _ hacc ?_
    intro rp hrp acc' hacc'
    dsimp only
    split_ifs with hmem
    · exact hacc'
    · have hrp2 : Grid4 rp.2 ∧ 0 ≤ rp.2 := by
        cases hl : alookup cands h with
        | none =>
          rw [hl] at hrp
          simp at hrp
        | some l =>
          rw [hl] at hrp
          simp only [Option.getD_some] at hrp
          obtain ⟨q, hq, _, hq2⟩ := alookup_mem hl
          exact hc q hq rp (by rw [hq2]; exact hrp)
      refine ihh _ _ _ _ (hg.add hrp2.1) ?_ hacc'
      have := hrp2.2
      linarith

/-- Well-formed role powers: on the grid and non-negative, as produced by
the store's `round(max(0.0, min(1.0, value)), 4)`. -/
def WFPowers (profiles : List (String × Profile)) : Prop :=
  ∀ pp ∈ profiles, ∀ rp ∈ pp.2.rolePower, Grid4 rp.2 ∧ 0 ≤ rp.2

instance (profiles : List (String × Profile)) : Decidable (WFPowers profiles) := by
  unfold WFPowers; infer_instance

theorem heroCandidates_powers (profiles : List (String × Profile))
    (roles : List String) (h : String) (hWF : WFPowers profiles) :
    ∀ rp ∈ heroCandidates profiles roles h, Grid4 rp.2 ∧ 0 ≤ rp.2 := by
  intro rp hrp
  unfold heroCandidates at hrp
  cases hl : alookup profiles h with
  | none =>
    rw [hl] at hrp
    rw [List.mem_map] at hrp
    obtain ⟨r, _, hre⟩ := hrp
    rw [← hre]
    exact ⟨Grid4.of_int (k := 6500) (by norm_num), by norm_num⟩
  | some p =>
    rw [hl] at hrp
    dsimp only at hrp
    rw [List.mem_map] at hrp
    obtain ⟨r, _, hre⟩ := hrp
    rw [← hre]
    dsimp only
    obtain ⟨q, hq, _, hq2⟩ := alookup_mem hl
    cases hv : alookup p.rolePower r with
    | none =>
      simp only [hv, Option.getD_none]
      norm_num
      exact Grid4.of_int (k := 7000) (by norm_num)
    | some w =>
      simp only [hv, Option.getD_some]
      by_cases hw : w = 0
      · simp only [hw, if_pos rfl]
        exact ⟨Grid4.of_int (k := 7000) (by norm_num), by norm_num⟩
      · rw [if_neg hw]
        obtain ⟨q2, hq2mem, _, hq22⟩ := alookup_mem hv
        have := hWF q hq q2 (by rw [hq2]; exact hq2mem)
        rw [hq22] at this
        exact this

theorem solverAcc_inv (profiles : List (String × Profile)) (roles : List String)
    (picks : List String) (hWF : WFPowers profiles) :
    AccInv (solverAcc profiles roles picks) := by
  unfold solverAcc
  refine dfsHeroes_inv _ ?_ _ _ _ _ _ Grid4.zero (le_refl 0)
    ⟨Grid4.of_int (k := -10000) (by norm_num), by intro hcon; exact absurd hcon (by simp)⟩
  intro pc hpc rp hrp
  unfold solverCands at hpc
  rw [List.mem_map] at hpc
  obtain ⟨h, _, hpe⟩ := hpc
  rw [← hpe] at hrp
  exact heroCandidates_powers profiles roles h hWF rp hrp

/-! ### Claim theorems -/

/-- Bounds on the returned feasibility score: `0` when infeasible, and at
least `37/10000` when feasible (for 1 to 5 heroes over the five roles). -/
theorem feasibilityScore_facts (heroes : List String)
    (profiles : List (String × Profile)) (roles : List String)
    (hroles : roles.length = 5) (hWF : WFPowers profiles)
    (hn1 : 1 ≤ (solverPicks heroes).length) (hn5 : (solverPicks heroes).length ≤ 5) :
    ((assignmentForSide heroes profiles roles).isFeasible = false →
      (assignmentForSide heroes profiles roles).feasibilityScore = 0) ∧
    ((assignmentForSide heroes profiles roles).isFeasible = true →
      (37 : ℚ) / 10000 ≤ (assignmentForSide heroes profiles roles).feasibilityScore) := by
  have hne : ¬ (solverPicks heroes).length = 0 := by omega
  have hinv := solverAcc_inv profiles roles (solverPicks heroes) hWF
  have hPpos : 1 ≤ Nat.descFactorial roles.length (solverPicks heroes).length := by
    have : ¬ Nat.descFactorial roles.length (solverPicks heroes).length = 0 := by
      rw [Nat.descFactorial_eq_zero_iff_lt]
      omega
    omega
  have hP120 : Nat.descFactorial roles.length (solverPicks heroes).length ≤ 120 := by
    rw [hroles]
    have h15 : (solverPicks heroes).length = 1 ∨ (solverPicks heroes).length = 2 ∨
        (solverPicks heroes).length = 3 ∨ (solverPicks heroes).length = 4 ∨
        (solverPicks heroes).length = 5 := by omega
    rcases h15 with h | h | h | h | h <;> rw [h] <;> decide
  simp only [assignmentForSide, if_neg hne]
  set A := solverAcc profiles roles (solverPicks heroes) with hA
  by_cases hv : A.validAssignments = 0
  · simp only [if_pos hv]
    constructor <;> simp
  · simp only [if_neg hv]
    refine ⟨fun hcon => absurd hcon (by simp), fun _ => ?_⟩
    rw [clamp_mul100_div100]
    have hmaxP : max (Nat.descFactorial roles.length (solverPicks heroes).length) 1 =
        Nat.descFactorial roles.length (solverPicks heroes).length :=
      Nat.max_eq_left hPpos
    have hmaxn : max (solverPicks heroes).length 1 = (solverPicks heroes).length :=
      Nat.max_eq_left hn1
    rw [hmaxP, hmaxn]
    set P := Nat.descFactorial roles.length (solverPicks heroes).length with hPdef
    have hP1 : (1 : ℚ) ≤ (A.validAssignments : ℚ) := by
      have : 1 ≤ A.validAssignments := by omega
      exact_mod_cast this
    have hPQpos : (0 : ℚ) < (P : ℚ) := by exact_mod_cast hPpos
    have hPQ120 : (P : ℚ) ≤ 120 := by exact_mod_cast hP120
    have hratio : (1 : ℚ) / 120 ≤ (A.validAssignments : ℚ) / (P : ℚ) := by
      rw [div_le_div_iff₀ (by norm_num) hPQpos]
      nlinarith
    have havg : (0 : ℚ) ≤ A.bestScore / ((solverPicks heroes).length : ℚ) := by
      apply div_nonneg (hinv.2 (by omega))
      positivity
    have hval : (3 : ℚ) / 800 ≤
        0.45 * ((A.validAssignments : ℚ) / (P : ℚ)) +
          0.55 * (A.bestScore / ((solverPicks heroes).length : ℚ)) := by
      nlinarith
    have hclamp : (3 : ℚ) / 800 ≤ clampQ
        (0.45 * ((A.validAssignments : ℚ) / (P : ℚ)) +
          0.55 * (A.bestScore / ((solverPicks heroes).length : ℚ))) 0 1 := by
      unfold clampQ
      have hmin : (3 : ℚ) / 800 ≤ min 1
          (0.45 * ((A.validAssignments : ℚ) / (P : ℚ)) +
            0.55 * (A.bestScore / ((solverPicks heroes).length : ℚ))) :=
        le_min (by norm_num) hval
      exact le_trans hmin (le_max_right _ _)
    have h37 : ((37 : ℤ) : ℚ) ≤ clampQ
        (0.45 * ((A.validAssignments : ℚ) / (P : ℚ)) +
          0.55 * (A.bestScore / ((solverPicks heroes).length : ℚ))) 0 1 * (10 : ℚ) ^ (4 : ℕ) := by
      push_cast
      nlinarith [hclamp]
    have := le_roundTo h37
    calc (37 : ℚ) / 10000 = ((37 : ℤ) : ℚ) / (10 : ℚ) ^ (4 : ℕ) := by norm_num
    _ ≤ _ := this

/-- C6: the `/api/draft/v2/assign` and `/api/draft/v2/recommend` handlers
surface a configuration error (for example the missing
`hero_role_pool.json`) with HTTP status `400`, not the `500` required by
the specification; only the `/api/draft/v2/meta` handler uses `500`. -/
theorem draft_c6_config_error_status :
    draftV2AssignStatus (.config ("Missing required file: hero_role_pool.json")) = 400 ∧
    draftV2RecommendStatus (.config ("Missing required file: hero_role_pool.json")) = 400 ∧
    draftV2MetaStatus (.config ("Missing required file: hero_role_pool.json")) = some 500 ∧
    (400 : Nat) ≠ 500 :=
  ⟨rfl, rfl, rfl, by decide⟩

/-- C1 (amended): for 1 to 5 heroes over the five roles (role powers from
the store's grid), the returned `feasibility_score` equals
`clamp01(0.45 · valid_assignments / P(|roles|, n) + 0.55 · best_score / n)`
rounded to 4 decimals.  (On the fully-flex three-hero example this value is
`0.8350`, not the `0.8900` the claim states — see the counterexample.) -/
theorem draft_c1_feasibility_formula (heroes : List String)
    (profiles : List (String × Profile)) (roles : List String)
    (hroles : roles.length = 5) (hWF : WFPowers profiles)
    (hn1 : 1 ≤ (solverPicks heroes).length) (hn5 : (solverPicks heroes).length ≤ 5) :
    (assignmentForSide heroes profiles roles).feasibilityScore =
      roundTo 4 (clampQ
        (0.45 * (((assignmentForSide heroes profiles roles).validAssignments : ℚ) /
            (Nat.descFactorial roles.length (solverPicks heroes).length : ℚ)) +
          0.55 * ((assignmentForSide heroes profiles roles).bestScore /
            ((solverPicks heroes).length : ℚ))) 0 1) := by
  have hne : ¬ (solverPicks heroes).length = 0 := by omega
  have hinv := solverAcc_inv profiles roles (solverPicks heroes) hWF
  have hPpos : 1 ≤ Nat.descFactorial roles.length (solverPicks heroes).length := by
    have : ¬ Nat.descFactorial roles.length (solverPicks heroes).length = 0 := by
      rw [Nat.descFactorial_eq_zero_iff_lt]
      omega
    omega
  simp only [assignmentForSide, if_neg hne]
  set A := solverAcc profiles roles (solverPicks heroes) with hA
  by_cases hv : A.validAssignments = 0
  · simp only [if_pos hv]
    norm_num [clampQ]
    rw [roundTo_zero]
  · simp only [if_neg hv]
    rw [clamp_mul100_div100]
    rw [Nat.max_eq_left hPpos, Nat.max_eq_left hn1, hinv.1.roundTo6]

/-- The five role names used by the concrete solver scenarios. -/
def wRoles : List String := ["exp", "jungle", "mid", "gold", "roam"]

/-- A fully flexible profile: all five roles at power `0.70`. -/
def flexProfile : Profile :=
  { possibleRoles := wRoles
    rolePower := wRoles.map (fun r => (r, (0.70 : ℚ)))
    roleMeta := wRoles.map (fun r => (r, (80 : ℚ)))
    baseMeta := 80, bestTierScore := 88
    strongAgainst := [], counteredBy := [] }

/-- Three fully flexible heroes — the store of the C1 scenario. -/
def c1Profiles : List (String × Profile) :=
  [("h1", flexProfile), ("h2", flexProfile), ("h3", flexProfile)]

set_option maxRecDepth 4000 in
/-- C1 counterexample: for three heroes each eligible for all five roles
with all role powers `0.70`, the solver indeed returns
`valid_assignments = 60` and `best_score = 2.10`, but the feasibility score
is `0.45 · 1 + 0.55 · 0.70 = 0.8350`, not the `0.8900` the claim states. -/
theorem draft_c1_counterexample :
    (assignmentForSide ["h1", "h2", "h3"] c1Profiles wRoles).validAssignments = 60 ∧
    (assignmentForSide ["h1", "h2", "h3"] c1Profiles wRoles).bestScore = 21 / 10 ∧
    (assignmentForSide ["h1", "h2", "h3"] c1Profiles wRoles).feasibilityScore = 167 / 200 ∧
    ((167 : ℚ) / 200 ≠ 89 / 100) := by
  refine ⟨by decide, by decide, by decide, by norm_num⟩

/-- Witness for the amended C1 theorem at the fully flexible three-hero
input. -/
theorem draft_c1_witness :
    (wRoles.length = 5 ∧ WFPowers c1Profiles ∧
      1 ≤ (solverPicks ["h1", "h2", "h3"]).length ∧
      (solverPicks ["h1", "h2", "h3"]).length ≤ 5) ∧
    (assignmentForSide ["h1", "h2", "h3"] c1Profiles wRoles).feasibilityScore =
      roundTo 4 (clampQ
        (0.45 * (((assignmentForSide ["h1", "h2", "h3"] c1Profiles wRoles).validAssignments : ℚ) /
            (Nat.descFactorial wRoles.length (solverPicks ["h1", "h2", "h3"]).length : ℚ)) +
          0.55 * ((assignmentForSide ["h1", "h2", "h3"] c1Profiles wRoles).bestScore /
            ((solverPicks ["h1", "h2", "h3"]).length : ℚ))) 0 1) :=
  ⟨⟨by decide, by decide, by decide, by decide⟩,
    draft_c1_feasibility_formula ["h1", "h2", "h3"] c1Profiles wRoles
      (by decide) (by decide) (by decide) (by decide)⟩

/-- C10: for 1 to 5 heroes over the five roles, the solver's returned
`feasibility_score` is strictly positive exactly when `is_feasible` is
true; consequently the recommender's filter on `feasibility ≤ 0` (applied
to the rounded evaluator component) drops exactly the candidates whose
addition makes the side's composition infeasible. -/
theorem draft_c10_feasibility_positive_iff :
    (∀ (heroes : List String) (profiles : List (String × Profile)) (roles : List String),
      roles.length = 5 → WFPowers profiles →
      1 ≤ (solverPicks heroes).length → (solverPicks heroes).length ≤ 5 →
      (0 < (assignmentForSide heroes profiles roles).feasibilityScore ↔
        (assignmentForSide heroes profiles roles).isFeasible = true)) ∧
    (∀ (state : DraftState) (side : Side) (hero : String)
      (profiles : List (String × Profile)) (roles : List String) (ev : Eval),
      evaluatePickCandidate state side hero profiles roles = some ev →
      roles.length = 5 → WFPowers profiles →
      1 ≤ (solverPicks (state.picks side ++ [hero])).length →
      (solverPicks (state.picks side ++ [hero])).length ≤ 5 →
      (ev.components.feasibility ≤ 0 ↔
        ¬ (assignmentForSide (state.picks side ++ [hero]) profiles roles).isFeasible
          = true)) := by
  constructor
  · intro heroes profiles roles h5 hWF hn1 hn5
    have facts := feasibilityScore_facts heroes profiles roles h5 hWF hn1 hn5
    cases hfe : (assignmentForSide heroes profiles roles).isFeasible with
    | true =>
      constructor
      · intro _
        rfl
      · intro _
        exact lt_of_lt_of_le (by norm_num) (facts.2 hfe)
    | false =>
      rw [facts.1 hfe]
      simp
  · intro state side hero profiles roles ev hev h5 hWF hn1 hn5
    unfold evaluatePickCandidate at hev
    cases hp : alookup profiles hero with
    | none =>
      rw [hp] at hev
      exact absurd hev (by simp)
    | some p =>
      rw [hp] at hev
      simp only [Option.some_inj] at hev
      rw [← hev]
      have facts := feasibilityScore_facts (state.picks side ++ [hero]) profiles roles
        h5 hWF hn1 hn5
      show roundTo 4 ((assignmentForSide (state.picks side ++ [hero]) profiles
          roles).feasibilityScore * 100) ≤ 0 ↔ _
      cases hfe : (assignmentForSide (state.picks side ++ [hero]) profiles
          roles).isFeasible with
      | true =>
        have h37 := facts.2 hfe
        have hlow : ((3700 : ℤ) : ℚ) ≤ (assignmentForSide (state.picks side ++ [hero])
            profiles roles).feasibilityScore * 100 * (10 : ℚ) ^ (4 : ℕ) := by
          push_cast
          nlinarith
        have hpos : (0 : ℚ) < roundTo 4 ((assignmentForSide (state.picks side ++ [hero])
            profiles roles).feasibilityScore * 100) :=
          lt_of_lt_of_le (by norm_num) (le_roundTo hlow)
        constructor
        · intro hle
          linarith
        · intro habs
          exact absurd rfl habs
      | false =>
        rw [facts.1 hfe]
        simp [roundTo_zero]

/-- When at least one enemy candidate score exists and `top_n ≥ 1`, the
enemy best response is exactly the mean of the top `top_n` scores. -/
theorem enemyBestResponseScore_eq_mean (s : DraftState) (actingSide : Side)
    (profiles : List (String × Profile)) (roles : List String) (topN : Int)
    (h1 : 1 ≤ topN) (h2 : enemyCandidateScores s actingSide profiles roles ≠ []) :
    enemyBestResponseScore s actingSide profiles roles topN =
      ((enemyCandidateScores s actingSide profiles roles).take topN.toNat).sum /
        ((min topN ((enemyCandidateScores s actingSide profiles roles).length : ℤ) : ℤ) : ℚ) := by
  have hcands : candidateHeroes s profiles ≠ [] := by
    intro hc
    apply h2
    unfold enemyCandidateScores
    rw [hc]
    rfl
  have hlen : (1 : ℤ) ≤ ((enemyCandidateScores s actingSide profiles roles).length : ℤ) := by
    have : 0 < (enemyCandidateScores s actingSide profiles roles).length :=
      List.length_pos.mpr h2
    omega
  unfold enemyBestResponseScore
  rw [if_neg hcands, if_neg h2]
  have hmax : max topN 1 = topN := max_eq_left h1
  have hmin : (1 : ℤ) ≤ min topN ((enemyCandidateScores s actingSide profiles roles).length : ℤ) :=
    le_min h1 hlen
  have hmax2 : max (min topN ((enemyCandidateScores s actingSide profiles roles).length : ℤ)) 1 =
      min topN ((enemyCandidateScores s actingSide profiles roles).length : ℤ) :=
    max_eq_left hmin
  rw [hmax, hmax2]

/-- C4: with lookahead enabled, each of the top `beam_width` candidates
whose simulated next action is an enemy pick gets
`final = base − penalty_factor · mean(top enemy_top_n enemy candidate base
scores under the simulated state)` (rounded to 6 decimals), while a beam
candidate whose simulated next action is not an enemy pick keeps
`final = base`. -/
theorem draft_c4_lookahead_penalty (state : DraftState) (side : Side)
    (profiles : List (String × Profile)) (roles : List String)
    (cfg : LookaheadCfg) (ev : Eval)
    (_hEn : cfg.enabled = true)
    (_hbeam : ev ∈ (pickEvals state side profiles roles).take (max cfg.beamWidth 1).toNat)
    (hTopN : 1 ≤ cfg.enemyTopN) :
    (isEnemyPickNext (getCurrentAction (applyAction state ev.hero)).2.2 side = true →
      enemyCandidateScores (simPromote state ev.hero) side profiles roles ≠ [] →
      (lookaheadUpdate state side profiles roles cfg ev).score =
        roundTo 6 (ev.baseScore - cfg.penaltyFactor *
          (((enemyCandidateScores (simPromote state ev.hero) side profiles roles).take
              cfg.enemyTopN.toNat).sum /
            ((min cfg.enemyTopN
              ((enemyCandidateScores (simPromote state ev.hero) side profiles
                roles).length : ℤ) : ℤ) : ℚ)))) ∧
    (isEnemyPickNext (getCurrentAction (applyAction state ev.hero)).2.2 side = false →
      (lookaheadUpdate state side profiles roles cfg ev).score = ev.baseScore) := by
  constructor
  · intro hcond hne
    unfold lookaheadUpdate
    dsimp only
    rw [hcond, if_pos rfl]
    dsimp only
    rw [enemyBestResponseScore_eq_mean (simPromote state ev.hero) side profiles roles
      cfg.enemyTopN hTopN hne]
  · intro hcond
    unfold lookaheadUpdate
    dsimp only
    rw [hcond, if_neg (by simp)]

/-- A default evaluation record, used only to extract concrete values. -/
def dummyEval : Eval :=
  { hero := "", tierScore := 0, predictedRoles := [], components := ⟨0, 0, 0, 0, 0, 0⟩
    phase := "", baseScore := 0, score := 0, reasons := [], lookaheadPenalty := 0 }

/-- A profile pinned to the single role `jungle`. -/
def pinProfile : Profile :=
  { possibleRoles := ["jungle"], rolePower := [("jungle", 0.9)]
    roleMeta := [("jungle", 60)], baseMeta := 60, bestTierScore := 60
    strongAgainst := [], counteredBy := [] }

/-- Two heroes both pinned to `jungle` — an infeasible pair. -/
def c10Profiles : List (String × Profile) := [("x", pinProfile), ("y", pinProfile)]

/-- The state of the C10 witness: ally already picked `x`. -/
def c10State : DraftState :=
  { turnIndex := 4, actionProgress := 0, picksAlly := ["x"], picksEnemy := []
    bansAlly := [], bansEnemy := [] }

/-- The evaluation of candidate `y` for ally in `c10State`. -/
def c10Ev : Eval :=
  (evaluatePickCandidate c10State .ally "y" c10Profiles wRoles).getD dummyEval

set_option maxRecDepth 4000 in
/-- Witness for the C10 theorem: the infeasible pair `x, y` (both pinned to
`jungle`) has feasibility score `0` and is not feasible, and the evaluator
component for adding `y` to `x` is non-positive exactly because the pair is
infeasible. -/
theorem draft_c10_witness :
    ((wRoles.length = 5 ∧ WFPowers c10Profiles ∧
        1 ≤ (solverPicks ["x", "y"]).length ∧ (solverPicks ["x", "y"]).length ≤ 5) ∧
      (0 < (assignmentForSide ["x", "y"] c10Profiles wRoles).feasibilityScore ↔
        (assignmentForSide ["x", "y"] c10Profiles wRoles).isFeasible = true)) ∧
    (evaluatePickCandidate c10State .ally "y" c10Profiles wRoles = some c10Ev ∧
      (c10Ev.components.feasibility ≤ 0 ↔
        ¬ (assignmentForSide (c10State.picks .ally ++ ["y"]) c10Profiles
            wRoles).isFeasible = true)) :=
  ⟨⟨⟨by decide, by decide, by decide, by decide⟩,
      draft_c10_feasibility_positive_iff.1 ["x", "y"] c10Profiles wRoles
        (by decide) (by decide) (by decide) (by decide)⟩,
    ⟨by decide,
      draft_c10_feasibility_positive_iff.2 c10State .ally "y" c10Profiles wRoles c10Ev
        (by decide) (by decide) (by decide) (by decide) (by decide)⟩⟩

/-- C2 (amended): every draft state accepted by `normalize_draft_state` has
the two pick lists disjoint from each other and from both ban lists; the
two ban lists themselves are NOT checked against each other. -/
theorem draft_c2_normalize_disjoint (p : RecPayload) (s : DraftState)
    (h : normalizeDraftState p = .ok s) :
    (∀ x ∈ s.picksAlly, x ∉ s.picksEnemy) ∧
    (∀ x, x ∈ s.picksAlly ∨ x ∈ s.picksEnemy → x ∉ s.bansAlly ∧ x ∉ s.bansEnemy) := by
  unfold normalizeDraftState at h
  split at h
  · exact absurd h (by simp)
  split at h
  · exact absurd h (by simp)
  split at h
  case _ pa pe ba be _ _ _ _ =>
    split_ifs at h with h1 h2 h3
    injection h with h
    subst h
    constructor
    · intro x hx
      simp only [List.any_eq_true, decide_eq_true_eq] at h2
      push_neg at h2
      exact h2 x hx
    · intro x hx
      simp only [List.any_eq_true, List.mem_append, decide_eq_true_eq] at h3
      push_neg at h3
      exact h3 x hx
  case _ => exact absurd h (by simp)
  case _ => exact absurd h (by simp)
  case _ => exact absurd h (by simp)
  case _ => exact absurd h (by simp)

/-- The payload of the C2 counterexample: the hero `x` appears in both
sides' ban lists. -/
def c2Payload : RecPayload :=
  { picks := .dict (.arr []) (.arr [])
    bans := .dict (.arr ["x"]) (.arr ["x"])
    turnIndex := 0, actionProgress := 0 }

/-- The state `normalize_draft_state` returns for `c2Payload`. -/
def c2State : DraftState :=
  { turnIndex := 0, actionProgress := 0, picksAlly := [], picksEnemy := []
    bansAlly := ["x"], bansEnemy := ["x"] }

/-- C2 counterexample: a payload in which the hero `x` appears in both ban
lists is accepted by `normalize_draft_state` (no request error), so
normalisation does not reject every hero appearing in more than one of the
four pick/ban lists. -/
theorem draft_c2_counterexample :
    normalizeDraftState c2Payload = .ok c2State ∧
    "x" ∈ c2State.bansAlly ∧ "x" ∈ c2State.bansEnemy := by
  refine ⟨by decide, by decide, by decide⟩

/-- The payload of the C2 witness. -/
def c2WitnessPayload : RecPayload :=
  { picks := .dict (.arr ["a"]) (.arr ["b"])
    bans := .dict (.arr ["c"]) (.arr ["d"])
    turnIndex := 4, actionProgress := 0 }

/-- The state `normalize_draft_state` returns for `c2WitnessPayload`. -/
def c2WitnessState : DraftState :=
  { turnIndex := 4, actionProgress := 0, picksAlly := ["a"], picksEnemy := ["b"]
    bansAlly := ["c"], bansEnemy := ["d"] }

/-- Witness for the amended C2 theorem at a concrete accepted payload. -/
theorem draft_c2_witness :
    normalizeDraftState c2WitnessPayload = .ok c2WitnessState ∧
    "a" ∉ c2WitnessState.picksEnemy ∧ "a" ∉ c2WitnessState.bansAlly := by
  have hok : normalizeDraftState c2WitnessPayload = .ok c2WitnessState := by decide
  have hthm := draft_c2_normalize_disjoint c2WitnessPayload c2WitnessState hok
  exact ⟨hok, hthm.1 "a" (by decide), (hthm.2 "a" (Or.inl (by decide))).1⟩

/-- C9 (amended): when the `heroes` field is absent and the normalised
`side` string is neither `"ally"` nor `"enemy"`, `assign_from_payload` does
not raise; it silently behaves exactly as if `side` were `"ally"`. -/
theorem draft_c9_invalid_side_coerced (profiles : List (String × Profile))
    (roles : List String) (p : AssignPayload)
    (hm : p.heroes = RawSide.missing)
    (hs : assignSideName p.side ≠ "ally" ∧ assignSideName p.side ≠ "enemy") :
    assignFromPayload profiles roles p =
      assignFromPayload profiles roles { p with side := some "ally" } := by
  obtain ⟨hh, pk, sd⟩ := p
  simp only at hm hs ⊢
  subst hm
  unfold assignFromPayload assignHeroesRaw
  simp only
  rw [if_neg hs.2, if_neg (by decide : ¬ assignSideName (some "ally") = "enemy")]

/-- The payload of the C9 counterexample: no `heroes` field and the invalid
side name `midlane`. -/
def c9Payload : AssignPayload :=
  { heroes := .missing, picks := .dict (.arr ["a"]) (.arr ["b"]), side := some "midlane" }

/-- C9 counterexample: an assign payload whose `side` is `"midlane"` (not an
allowed side name) is served successfully — the request error the claim
requires is never raised, and the ally picks are used. -/
theorem draft_c9_counterexample :
    assignSideName c9Payload.side = "midlane" ∧
    (assignFromPayload [] ["exp", "jungle", "mid", "gold", "roam"] c9Payload).toOption.map
      AssignOut.heroes = some ["a"] := by
  refine ⟨by decide, by decide⟩

/-- The payload of the C9 witness (invalid side `"top"`). -/
def c9WitnessPayload : AssignPayload :=
  { heroes := .missing, picks := .dict (.arr ["a"]) (.arr ["b"]), side := some "top" }

/-- Witness for the amended C9 theorem: with the invalid side `"top"`, the
assign result is the one computed for side `"ally"`. -/
theorem draft_c9_witness :
    (c9WitnessPayload.heroes = RawSide.missing ∧
      assignSideName c9WitnessPayload.side ≠ "ally" ∧
      assignSideName c9WitnessPayload.side ≠ "enemy") ∧
    assignFromPayload [] ["exp", "jungle", "mid", "gold", "roam"] c9WitnessPayload =
      assignFromPayload [] ["exp", "jungle", "mid", "gold", "roam"]
        { c9WitnessPayload with side := some "ally" } :=
  ⟨⟨by decide, by decide, by decide⟩,
    draft_c9_invalid_side_coerced _ _ _ (by decide) ⟨by decide, by decide⟩⟩

/-- C7: the counter component is `50` when the enemy has no picks, and
otherwise `clamp_100(50 + mean(strong_against[e] - countered_by[e]) · 100
· 0.60)` over the enemy picks, rounded to 4 decimals in the output. -/
theorem draft_c7_counter_component (state : DraftState) (side : Side) (hero : String)
    (profiles : List (String × Profile)) (roles : List String) (p : Profile) (ev : Eval)
    (hp : alookup profiles hero = some p)
    (hev : evaluatePickCandidate state side hero profiles roles = some ev) :
    ev.components.counter = roundTo 4 (
      if state.picks (oppositeSide side) = [] then 50
      else clampQ (50 +
        (((state.picks (oppositeSide side)).map (fun e =>
            (alookup p.strongAgainst e).getD 0 - (alookup p.counteredBy e).getD 0)).sum /
          ((state.picks (oppositeSide side)).length : ℚ)) * 100 * 0.60) 0 100) := by
  unfold evaluatePickCandidate at hev
  rw [hp] at hev
  simp only [Option.some_inj] at hev
  rw [← hev]
  show roundTo 4 (counterComponent p (state.picks (oppositeSide side))) = _
  congr 1
  unfold counterComponent
  split_ifs with he
  · rfl
  · dsimp only
    congr 1
    rw [List.sum_map_mul_right, List.length_map]
    ring

/-- The profile of the C7/C8 witness candidate `c`: strong against `e1`
with rate `0.8`, countered by `e1` with rate `0.1`. -/
def cProfile : Profile :=
  { possibleRoles := ["mid"], rolePower := [("mid", 0.8)]
    roleMeta := [("mid", 70)], baseMeta := 70, bestTierScore := 74
    strongAgainst := [("e1", 0.8)], counteredBy := [("e1", 0.1)] }

/-- The profile of the enemy pick `e1`. -/
def e1Profile : Profile :=
  { possibleRoles := ["gold"], rolePower := [("gold", 0.8)]
    roleMeta := [("gold", 60)], baseMeta := 60, bestTierScore := 60
    strongAgainst := [], counteredBy := [] }

/-- Store of the C7/C8 witness scenarios. -/
def c7Profiles : List (String × Profile) := [("c", cProfile), ("e1", e1Profile)]

/-- State of the C7/C8 witness scenarios: enemy picked `e1`. -/
def c7State : DraftState :=
  { turnIndex := 4, actionProgress := 0, picksAlly := [], picksEnemy := ["e1"]
    bansAlly := [], bansEnemy := [] }

/-- The evaluation of candidate `c` for ally in `c7State`. -/
def c7Ev : Eval :=
  (evaluatePickCandidate c7State .ally "c" c7Profiles wRoles).getD dummyEval

set_option maxRecDepth 4000 in
/-- Witness for the C7 theorem: with `strong_against = 0.8` and
`countered_by = 0.1` against the single enemy pick, the counter component
is exactly `92` — the specification's counter-weighting scenario. -/
theorem draft_c7_witness :
    (alookup c7Profiles "c" = some cProfile ∧
      evaluatePickCandidate c7State .ally "c" c7Profiles wRoles = some c7Ev) ∧
    c7Ev.components.counter = roundTo 4 (
      if c7State.picks (oppositeSide .ally) = [] then 50
      else clampQ (50 +
        (((c7State.picks (oppositeSide .ally)).map (fun e =>
            (alookup cProfile.strongAgainst e).getD 0 -
              (alookup cProfile.counteredBy e).getD 0)).sum /
          ((c7State.picks (oppositeSide .ally)).length : ℚ)) * 100 * 0.60) 0 100) ∧
    c7Ev.components.counter = 92 :=
  ⟨⟨by decide, by decide⟩,
    draft_c7_counter_component c7State .ally "c" c7Profiles wRoles cProfile c7Ev
      (by decide) (by decide), by decide⟩

/-- Well-formed meta data of a profile: `base_meta` and every `role_meta`
value lie in `[0, 100]`, as the store guarantees. -/
def WFMeta (p : Profile) : Prop :=
  (0 ≤ p.baseMeta ∧ p.baseMeta ≤ 100) ∧ ∀ rv ∈ p.roleMeta, 0 ≤ rv.2 ∧ rv.2 ≤ 100

instance (p : Profile) : Decidable (WFMeta p) := by unfold WFMeta; infer_instance

theorem clampQ_mem_0_100 (x : ℚ) : 0 ≤ clampQ x 0 100 ∧ clampQ x 0 100 ≤ 100 :=
  ⟨lo_le_clampQ, clampQ_le_hi (by norm_num)⟩

theorem roundTo4_mem_0_100 {x : ℚ} (h0 : 0 ≤ x) (h1 : x ≤ 100) :
    0 ≤ roundTo 4 x ∧ roundTo 4 x ≤ 100 := by
  refine ⟨roundTo_nonneg h0, ?_⟩
  have hb : x * (10 : ℚ) ^ (4 : ℕ) ≤ ((1000000 : ℤ) : ℚ) := by
    push_cast
    nlinarith
  calc roundTo 4 x ≤ ((1000000 : ℤ) : ℚ) / (10 : ℚ) ^ (4 : ℕ) := roundTo_le hb
  _ = 100 := by norm_num

theorem roleMetaValue_bounds (p : Profile) (r : String) (hWF : WFMeta p) :
    0 ≤ roleMetaValue p r ∧ roleMetaValue p r ≤ 100 := by
  have hfb : 0 ≤ (if p.baseMeta = 0 then (50 : ℚ) else p.baseMeta) ∧
      (if p.baseMeta = 0 then (50 : ℚ) else p.baseMeta) ≤ 100 := by
    split_ifs with h
    · norm_num
    · exact hWF.1
  unfold roleMetaValue
  cases hv : alookup p.roleMeta r with
  | none => exact hfb
  | some v =>
    dsimp only
    by_cases hv0 : v = 0
    · rw [if_pos hv0]
      exact hfb
    · rw [if_neg hv0]
      obtain ⟨q, hq, _, hq2⟩ := alookup_mem hv
      have := hWF.2 q hq
      rw [hq2] at this
      exact this

theorem metaComponent_bounds (p : Profile) (predicted : List String) (hWF : WFMeta p) :
    0 ≤ metaComponent p predicted ∧ metaComponent p predicted ≤ 100 := by
  have hfb : 0 ≤ (if p.baseMeta = 0 then (50 : ℚ) else p.baseMeta) ∧
      (if p.baseMeta = 0 then (50 : ℚ) else p.baseMeta) ≤ 100 := by
    split_ifs with h
    · norm_num
    · exact hWF.1
  unfold metaComponent
  constructor
  · refine le_listMax ?_ hfb.1
    intro x hx
    rw [List.mem_map] at hx
    obtain ⟨r, _, hre⟩ := hx
    rw [← hre]
    exact (roleMetaValue_bounds p r hWF).1
  · refine listMax_le ?_ hfb.2
    intro x hx
    rw [List.mem_map] at hx
    obtain ⟨r, _, hre⟩ := hx
    rw [← hre]
    exact (roleMetaValue_bounds p r hWF).2

theorem counterComponent_bounds (p : Profile) (enemyPicks : List String) :
    0 ≤ counterComponent p enemyPicks ∧ counterComponent p enemyPicks ≤ 100 := by
  unfold counterComponent
  split_ifs with he
  · norm_num
  · exact clampQ_mem_0_100 _

theorem synergyComponent_bounds (cur next : AssignResult) (roles : List String) :
    0 ≤ synergyComponent cur next roles ∧ synergyComponent cur next roles ≤ 100 := by
  unfold synergyComponent
  by_cases hf : ¬ next.isFeasible = true
  · rw [if_pos hf]
    norm_num
  · rw [if_neg hf]
    exact clampQ_mem_0_100 _

theorem denyComponent_bounds (p : Profile) (myPicks : List String) (meta : ℚ) :
    0 ≤ denyComponent p myPicks meta ∧ denyComponent p myPicks meta ≤ 100 := by
  unfold denyComponent
  split_ifs with he
  · exact clampQ_mem_0_100 _
  · exact clampQ_mem_0_100 _

theorem flexComponent_bounds (p : Profile) (roles : List String) :
    0 ≤ flexComponent p roles ∧ flexComponent p roles ≤ 100 :=
  clampQ_mem_0_100 _

/-- The image of `round(_clamp(v, 0, 100)/100, 4)` lies in `[0, 1]`. -/
theorem roundTo4_clamp_div_mem (v : ℚ) :
    0 ≤ roundTo 4 (clampQ v 0 100 / 100) ∧ roundTo 4 (clampQ v 0 100 / 100) ≤ 1 := by
  have h1 := (clampQ_mem_0_100 v).1
  have h2 := (clampQ_mem_0_100 v).2
  constructor
  · exact roundTo_nonneg (by linarith)
  · have hb : clampQ v 0 100 / 100 * (10 : ℚ) ^ (4 : ℕ) ≤ ((10000 : ℤ) : ℚ) := by
      push_cast
      nlinarith
    calc roundTo 4 (clampQ v 0 100 / 100) ≤ ((10000 : ℤ) : ℚ) / (10 : ℚ) ^ (4 : ℕ) :=
      roundTo_le hb
    _ = 1 := by norm_num

/-- The feasibility score returned by the solver always lies in `[0, 1]`. -/
theorem feasibilityScore_mem_0_1 (heroes : List String)
    (profiles : List (String × Profile)) (roles : List String) :
    0 ≤ (assignmentForSide heroes profiles roles).feasibilityScore ∧
      (assignmentForSide heroes profiles roles).feasibilityScore ≤ 1 := by
  unfold assignmentForSide
  by_cases hn : (solverPicks heroes).length = 0
  · simp only [if_pos hn]
    norm_num
  · simp only [if_neg hn]
    by_cases hv : (solverAcc profiles roles (solverPicks heroes)).validAssignments = 0
    · simp only [if_pos hv]
      norm_num
    · simp only [if_neg hv]
      exact roundTo4_clamp_div_mem _

/-- The largest of the six components. -/
def maxComponent (c : Components) : ℚ :=
  max (max (max (max (max c.meta c.counter) c.synergy) c.deny) c.flex) c.feasibility

theorem phaseName_cases (n : Nat) :
    phaseName n = "early" ∨ phaseName n = "mid" ∨ phaseName n = "late" := by
  unfold phaseName
  split_ifs <;> simp

theorem blendOf_le_maxComponent (c : Components) (ph : String)
    (hph : ph = "early" ∨ ph = "mid" ∨ ph = "late") :
    blendOf c ph ≤ maxComponent c := by
  have h1 : c.meta ≤ maxComponent c :=
    le_sup_of_le_left (le_sup_of_le_left (le_sup_of_le_left (le_sup_of_le_left le_sup_left)))
  have h2 : c.counter ≤ maxComponent c :=
    le_sup_of_le_left (le_sup_of_le_left (le_sup_of_le_left (le_sup_of_le_left le_sup_right)))
  have h3 : c.synergy ≤ maxComponent c :=
    le_sup_of_le_left (le_sup_of_le_left (le_sup_of_le_left le_sup_right))
  have h4 : c.deny ≤ maxComponent c :=
    le_sup_of_le_left (le_sup_of_le_left le_sup_right)
  have h5 : c.flex ≤ maxComponent c := le_sup_of_le_left le_sup_right
  have h6 : c.feasibility ≤ maxComponent c := le_sup_right
  rcases hph with h | h | h <;> subst h <;> simp [blendOf, phaseWeightsFor] <;> linarith

/-- C8: under well-formed profile data, every one of the six output
components of the candidate evaluator lies in `[0, 100]`, and the blended
base score `Σ weight · component` is at most the largest (un-rounded)
component, since each phase's weights sum to `1`; the output score is the
6-decimal rounding of that blend. -/
theorem draft_c8_components_bounded (state : DraftState) (side : Side) (hero : String)
    (profiles : List (String × Profile)) (roles : List String) (p : Profile) (ev : Eval)
    (hp : alookup profiles hero = some p) (hWF : WFMeta p)
    (hev : evaluatePickCandidate state side hero profiles roles = some ev) :
    (0 ≤ ev.components.meta ∧ ev.components.meta ≤ 100) ∧
    (0 ≤ ev.components.counter ∧ ev.components.counter ≤ 100) ∧
    (0 ≤ ev.components.synergy ∧ ev.components.synergy ≤ 100) ∧
    (0 ≤ ev.components.deny ∧ ev.components.deny ≤ 100) ∧
    (0 ≤ ev.components.flex ∧ ev.components.flex ≤ 100) ∧
    (0 ≤ ev.components.feasibility ∧ ev.components.feasibility ≤ 100) ∧
    blendOf (componentsOf state side hero p
        (assignmentForSide (state.picks side) profiles roles)
        (assignmentForSide (state.picks side ++ [hero]) profiles roles) roles)
        (phaseName ((state.picks side ++ [hero]).length)) ≤
      maxComponent (componentsOf state side hero p
        (assignmentForSide (state.picks side) profiles roles)
        (assignmentForSide (state.picks side ++ [hero]) profiles roles) roles) ∧
    ev.score = roundTo 6 (blendOf (componentsOf state side hero p
        (assignmentForSide (state.picks side) profiles roles)
        (assignmentForSide (state.picks side ++ [hero]) profiles roles) roles)
        (phaseName ((state.picks side ++ [hero]).length))) := by
  unfold evaluatePickCandidate at hev
  rw [hp] at hev
  simp only [Option.some_inj] at hev
  rw [← hev]
  set cur := assignmentForSide (state.picks side) profiles roles with hcur
  set next := assignmentForSide (state.picks side ++ [hero]) profiles roles with hnext
  set C := componentsOf state side hero p cur next roles with hC
  have hmeta : 0 ≤ C.meta ∧ C.meta ≤ 100 := metaComponent_bounds p _ hWF
  have hcounter : 0 ≤ C.counter ∧ C.counter ≤ 100 := counterComponent_bounds p _
  have hsyn : 0 ≤ C.synergy ∧ C.synergy ≤ 100 := synergyComponent_bounds cur next roles
  have hdeny : 0 ≤ C.deny ∧ C.deny ≤ 100 := denyComponent_bounds p _ _
  have hflex : 0 ≤ C.flex ∧ C.flex ≤ 100 := flexComponent_bounds p roles
  have hfs := feasibilityScore_mem_0_1 (state.picks side ++ [hero]) profiles roles
  have hfeas : 0 ≤ C.feasibility ∧ C.feasibility ≤ 100 := by
    have h1 : C.feasibility = next.feasibilityScore * 100 := rfl
    rw [h1]
    rw [← hnext] at hfs
    constructor <;> nlinarith [hfs.1, hfs.2]
  refine ⟨roundTo4_mem_0_100 hmeta.1 hmeta.2, roundTo4_mem_0_100 hcounter.1 hcounter.2,
    roundTo4_mem_0_100 hsyn.1 hsyn.2, roundTo4_mem_0_100 hdeny.1 hdeny.2,
    roundTo4_mem_0_100 hflex.1 hflex.2, roundTo4_mem_0_100 hfeas.1 hfeas.2,
    blendOf_le_maxComponent C _ (phaseName_cases _), rfl⟩

set_option maxRecDepth 4000 in
/-- Witness for the C8 theorem at the concrete counter-weighting scenario. -/
theorem draft_c8_witness :
    (alookup c7Profiles "c" = some cProfile ∧ WFMeta cProfile ∧
      evaluatePickCandidate c7State .ally "c" c7Profiles wRoles = some c7Ev) ∧
    ((0 ≤ c7Ev.components.meta ∧ c7Ev.components.meta ≤ 100) ∧
      (0 ≤ c7Ev.components.counter ∧ c7Ev.components.counter ≤ 100) ∧
      (0 ≤ c7Ev.components.synergy ∧ c7Ev.components.synergy ≤ 100) ∧
      (0 ≤ c7Ev.components.deny ∧ c7Ev.components.deny ≤ 100) ∧
      (0 ≤ c7Ev.components.flex ∧ c7Ev.components.flex ≤ 100) ∧
      (0 ≤ c7Ev.components.feasibility ∧ c7Ev.components.feasibility ≤ 100) ∧
      blendOf (componentsOf c7State .ally "c" cProfile
          (assignmentForSide (c7State.picks .ally) c7Profiles wRoles)
          (assignmentForSide (c7State.picks .ally ++ ["c"]) c7Profiles wRoles) wRoles)
          (phaseName ((c7State.picks .ally ++ ["c"]).length)) ≤
        maxComponent (componentsOf c7State .ally "c" cProfile
          (assignmentForSide (c7State.picks .ally) c7Profiles wRoles)
          (assignmentForSide (c7State.picks .ally ++ ["c"]) c7Profiles wRoles) wRoles) ∧
      c7Ev.score = roundTo 6 (blendOf (componentsOf c7State .ally "c" cProfile
          (assignmentForSide (c7State.picks .ally) c7Profiles wRoles)
          (assignmentForSide (c7State.picks .ally ++ ["c"]) c7Profiles wRoles) wRoles)
          (phaseName ((c7State.picks .ally ++ ["c"]).length)))) :=
  ⟨⟨by decide, by decide, by decide⟩,
    draft_c8_components_bounded c7State .ally "c" c7Profiles wRoles cProfile c7Ev
      (by decide) (by decide) (by decide)⟩

/-- The state of the C4 witness: the first ally pick is on clock (all bans
skipped), so the simulated next action is the enemy double pick. -/
def c4State : DraftState :=
  { turnIndex := 4, actionProgress := 0, picksAlly := [], picksEnemy := []
    bansAlly := [], bansEnemy := [] }

/-- The top candidate of the beam in the C4 witness. -/
def c4Ev : Eval := (pickEvals c4State .ally c1Profiles wRoles).headD dummyEval

set_option maxRecDepth 8000 in
/-- Witness for the C4 theorem: the top beam candidate at the first ally
pick is penalised by `0.25` times the mean of the top enemy responses. -/
theorem draft_c4_witness :
    (lookaheadDefault.enabled = true ∧
      c4Ev ∈ (pickEvals c4State .ally c1Profiles wRoles).take
        (max lookaheadDefault.beamWidth 1).toNat ∧
      1 ≤ lookaheadDefault.enemyTopN ∧
      isEnemyPickNext (getCurrentAction (applyAction c4State c4Ev.hero)).2.2 .ally = true ∧
      enemyCandidateScores (simPromote c4State c4Ev.hero) .ally c1Profiles wRoles ≠ []) ∧
    (lookaheadUpdate c4State .ally c1Profiles wRoles lookaheadDefault c4Ev).score =
      roundTo 6 (c4Ev.baseScore - lookaheadDefault.penaltyFactor *
        (((enemyCandidateScores (simPromote c4State c4Ev.hero) .ally c1Profiles
            wRoles).take lookaheadDefault.enemyTopN.toNat).sum /
          ((min lookaheadDefault.enemyTopN
            ((enemyCandidateScores (simPromote c4State c4Ev.hero) .ally c1Profiles
              wRoles).length : ℤ) : ℤ) : ℚ))) :=
  ⟨⟨rfl, by decide, by decide, by decide, by decide⟩,
    (draft_c4_lookahead_penalty c4State .ally c1Profiles wRoles lookaheadDefault c4Ev
      rfl (by decide) (by decide)).1 (by decide) (by decide)⟩

/-- C5 (amended): every returned ban candidate's score is the evaluator
base (scored as if the enemy picked it) plus
`clamp_15(|role_fit| / |roles| · 15)` where `role_fit` is the sorted
intersection of the candidate's possible roles with the enemy's open roles
IF that intersection is non-empty, and otherwise falls back (via Python's
falsy `or`) to the candidate's full possible-role list — so the bonus is
NOT `0` on an empty intersection; at most 12 candidates are returned. -/
theorem draft_c5_ban_scoring (state : DraftState) (side : Side)
    (profiles : List (String × Profile)) (roles : List String) :
    (recommendBan state side profiles roles).length ≤ 12 ∧
    (∀ (hero : String) (ev0 ev' : Eval),
      evaluatePickCandidate state (oppositeSide side) hero profiles roles = some ev0 →
      banCandidate state (oppositeSide side) (banEnemyOpen state side profiles roles)
        profiles roles hero = some ev' →
      ev'.score = roundTo 6 (ev0.baseScore +
        clampQ (((banRoleFit (banPoss profiles roles hero)
            (banEnemyOpen state side profiles roles)).length : ℚ) /
          ((max roles.length 1 : ℕ) : ℚ) * 15) 0 100)) := by
  constructor
  · unfold recommendBan
    rw [List.length_take]
    omega
  · intro hero ev0 ev' hev0 hban
    unfold banCandidate at hban
    dsimp only at hban
    split_ifs at hban with hfit
    rw [hev0] at hban
    simp only [Option.some_inj] at hban
    rw [← hban]

/-- The profile of the C5 counterexample candidate `c2`, pinned to `gold`. -/
def c2Profile : Profile :=
  { possibleRoles := ["gold"], rolePower := [("gold", 0.9)]
    roleMeta := [("gold", 75)], baseMeta := 75, bestTierScore := 74
    strongAgainst := [], counteredBy := [] }

/-- Store of the C5 scenario. -/
def c5Profiles : List (String × Profile) := [("c2", c2Profile), ("e1", e1Profile)]

/-- State of the C5 scenario: ally ban on clock (turn 9), enemy picked
`e1`, whose best assignment occupies `gold` — so `gold` is not open. -/
def c5State : DraftState :=
  { turnIndex := 9, actionProgress := 0, picksAlly := [], picksEnemy := ["e1"]
    bansAlly := [], bansEnemy := [] }

/-- The evaluator record for `c2` as an enemy pick in `c5State`. -/
def c5Ev0 : Eval :=
  (evaluatePickCandidate c5State (oppositeSide .ally) "c2" c5Profiles wRoles).getD dummyEval

/-- The ban-branch record for `c2` in `c5State`. -/
def c5BanEv : Eval :=
  (banCandidate c5State (oppositeSide .ally) (banEnemyOpen c5State .ally c5Profiles wRoles)
    c5Profiles wRoles "c2").getD dummyEval

set_option maxRecDepth 8000 in
/-- C5 counterexample: the candidate `c2` has an empty intersection with
the enemy's open roles, yet its returned ban score is the evaluator base
plus `3` (the fallback bonus `|possible_roles|/|roles| · 15 = 1/5 · 15`),
not base plus `0` as the claim requires. -/
theorem draft_c5_counterexample :
    sortStrAsc ((banPoss c5Profiles wRoles "c2").filter
      (fun r => r ∈ banEnemyOpen c5State .ally c5Profiles wRoles)) = [] ∧
    evaluatePickCandidate c5State (oppositeSide .ally) "c2" c5Profiles wRoles = some c5Ev0 ∧
    banCandidate c5State (oppositeSide .ally) (banEnemyOpen c5State .ally c5Profiles wRoles)
      c5Profiles wRoles "c2" = some c5BanEv ∧
    c5BanEv ∈ recommendBan c5State .ally c5Profiles wRoles ∧
    c5BanEv.score = c5Ev0.baseScore + 3 ∧
    c5BanEv.score ≠ c5Ev0.baseScore := by
  refine ⟨by decide, by decide, by decide, by decide, by decide, by decide⟩

set_option maxRecDepth 8000 in
/-- Witness for the amended C5 theorem at the concrete `c2` scenario. -/
theorem draft_c5_witness :
    ((recommendBan c5State .ally c5Profiles wRoles).length ≤ 12) ∧
    c5BanEv.score = roundTo 6 (c5Ev0.baseScore +
      clampQ (((banRoleFit (banPoss c5Profiles wRoles "c2")
          (banEnemyOpen c5State .ally c5Profiles wRoles)).length : ℚ) /
        ((max wRoles.length 1 : ℕ) : ℚ) * 15) 0 100) :=
  ⟨(draft_c5_ban_scoring c5State .ally c5Profiles wRoles).1,
    (draft_c5_ban_scoring c5State .ally c5Profiles wRoles).2 "c2" c5Ev0 c5BanEv
      (by decide) (by decide)⟩

/-- C3 (amended): when the sequence is not complete and the hero is fresh
(it appears nowhere in the state), `_apply_action` strictly increases
`turn_index`, or keeps it and strictly increases `action_progress`.  (When
the hero already appears in the state, or the script is exhausted, apply is
a no-op and neither counter changes — see the counterexample.) -/
theorem draft_c3_apply_monotone (s : DraftState) (hero : String) (act : Action)
    (idx progress : Nat)
    (hcur : getCurrentAction s = (idx, progress, some act))
    (hfresh : hero ∉ s.picksAlly ∧ hero ∉ s.picksEnemy ∧
      hero ∉ s.bansAlly ∧ hero ∉ s.bansEnemy) :
    s.turnIndex < (applyAction s hero).turnIndex ∨
      ((applyAction s hero).turnIndex = s.turnIndex ∧
        s.actionProgress < (applyAction s hero).actionProgress) := by
  have h1 : s.turnIndex ≤ idx := by
    have := gcaAux_fst_ge s (draftV2Sequence.drop s.turnIndex) s.turnIndex s.actionProgress
    rw [show gcaAux s (draftV2Sequence.drop s.turnIndex) s.turnIndex s.actionProgress
        = getCurrentAction s from rfl, hcur] at this
    exact this
  have h2 : idx = s.turnIndex → progress = s.actionProgress := by
    intro heq
    have h := gcaAux_snd_of_fst_eq s (draftV2Sequence.drop s.turnIndex) s.turnIndex
      s.actionProgress
    rw [show gcaAux s (draftV2Sequence.drop s.turnIndex) s.turnIndex s.actionProgress
        = getCurrentAction s from rfl, hcur] at h
    exact h heq
  unfold applyAction
  rw [hcur]
  dsimp only
  rw [if_neg (by tauto), if_neg (by tauto)]
  set out2 : DraftState :=
    { appendHero s act hero with turnIndex := idx, actionProgress := progress + 1 }
    with hout2
  have h3 : idx ≤ (getCurrentAction out2).1 := by
    have := gcaAux_fst_ge out2 (draftV2Sequence.drop out2.turnIndex) out2.turnIndex
      out2.actionProgress
    simpa [hout2] using this
  have h4 : (getCurrentAction out2).1 = idx → (getCurrentAction out2).2.1 = progress + 1 := by
    intro heq
    have := gcaAux_snd_of_fst_eq out2 (draftV2Sequence.drop out2.turnIndex) out2.turnIndex
      out2.actionProgress
    simp only [hout2] at this ⊢
    exact this heq
  rcases Nat.lt_or_ge s.turnIndex (getCurrentAction out2).1 with hlt | hge
  · left
    show s.turnIndex < (getCurrentAction out2).1
    exact hlt
  · have hidx : (getCurrentAction out2).1 = idx := le_antisymm (le_trans hge h1) h3
    have hprog := h4 hidx
    have hpe := h2 (by omega)
    right
    constructor
    · show (getCurrentAction out2).1 = s.turnIndex
      omega
    · show s.actionProgress < (getCurrentAction out2).2.1
      omega

/-- The payload of the C3 counterexample (hero `a` already picked). -/
def c3Payload : RecPayload :=
  { picks := .dict (.arr ["a"]) (.arr []), bans := .dict (.arr []) (.arr [])
    turnIndex := 4, actionProgress := 0 }

/-- The normalised state of the C3 counterexample. -/
def c3State : DraftState :=
  { turnIndex := 4, actionProgress := 0, picksAlly := ["a"], picksEnemy := []
    bansAlly := [], bansEnemy := [] }

/-- C3 counterexample: applying a hero that already appears in the
normalised state is a no-op — `turn_index` stays and `action_progress`
stays, so neither strictly increases. -/
theorem draft_c3_counterexample :
    normalizeDraftState c3Payload = .ok c3State ∧
    applyAction c3State "a" = c3State ∧
    (applyAction c3State "a").turnIndex = c3State.turnIndex ∧
    (applyAction c3State "a").actionProgress = c3State.actionProgress := by
  refine ⟨by decide, by decide, by decide, by decide⟩

/-- Witness for the amended C3 theorem: applying the fresh hero `b` at turn
4 advances the script. -/
theorem draft_c3_witness :
    (getCurrentAction c3State =
      (4, 0, some ⟨.pick, .ally, 1, "Ally pick 1 hero", 1⟩)) ∧
    (c3State.turnIndex < (applyAction c3State "b").turnIndex ∨
      ((applyAction c3State "b").turnIndex = c3State.turnIndex ∧
        c3State.actionProgress < (applyAction c3State "b").actionProgress)) :=
  ⟨by decide,
    draft_c3_apply_monotone c3State "b" ⟨.pick, .ally, 1, "Ally pick 1 hero", 1⟩ 4 0
      (by decide) ⟨by decide, by decide, by decide, by decide⟩⟩

end DraftV2
